import Mathlib

/-!
# Verification of the `aicookbook` agent collection

Shallow embedding, in Lean 4, of the LangGraph agent pipelines of the
`aicookbook` repository, together with theorems settling the claims of the
natural-language specification against the code.

Modelling conventions, used uniformly below:

* Python functions that may raise become Lean functions into `Except PyExn _`.
  A `try ... except Exception as e: ...` block is the combinator `pyTry`.
* Calls into third-party libraries (PDF loader, text splitter, ChromaDB,
  the hosted LLM, the news HTTP API, `json.loads`) are oracle parameters:
  each node takes the outcome (or outcome function) of its external calls
  as an explicit `Except PyExn _`-valued argument.  Everything the
  repository's own code does with those outcomes is translated literally.
* LangGraph state channels declared `Annotated[..., operator.add]`
  (`errors`, `messages`) accumulate by list concatenation; the reducer is
  folded into each node model, so a node that returns `{"errors": [m]}`
  is modelled as setting `errors := s.errors ++ [m]`.
* Python floats are idealised as `ℚ`; `datetime.now()` strings are oracle
  parameters (`now`).
-/

namespace AICookbook

/-- Python exception values.  `json.loads` raises `json.JSONDecodeError`,
which some handlers catch separately from the generic `Exception`;
everything else is `other`.  The payload is the text `str(e)` would show. -/
inductive PyExn where
  | jsonDecode (msg : String)
  | other (msg : String)
deriving DecidableEq, Repr

/-- `str(e)` on a caught exception. -/
def pyStr : PyExn → String
  | .jsonDecode m => m
  | .other m => m

/-- `try: body ... except Exception as e: handler e` — a broad handler turns
any raised exception into a normal return value. -/
def pyTry {σ : Type} (body : Except PyExn σ) (handler : PyExn → σ) : Except PyExn σ :=
  match body with
  | .ok v => .ok v
  | .error e => .ok (handler e)

/-- `try: body ... except json.JSONDecodeError as e: ... except Exception as e: ...`
(the two-handler shape of `parse_transactions` in the bank statement
analyzer and `extract_locations_node` in the itinerary agent). -/
def pyTryJson {σ : Type} (body : Except PyExn σ) (jsonHandler : String → σ)
    (handler : PyExn → σ) : Except PyExn σ :=
  match body with
  | .ok v => .ok v
  | .error (.jsonDecode m) => .ok (jsonHandler m)
  | .error (.other m) => .ok (handler (.other m))

/-- The payload of an `ok` outcome, with a default for the `error` case
(used to turn `f x = .ok y` hypotheses into projections). -/
def okD {σ : Type} (x : Except PyExn σ) (d : σ) : σ :=
  match x with
  | .ok v => v
  | .error _ => d

/-- JSON values, as returned by Python's `json.loads`.  Numbers are
idealised as rationals. -/
inductive Json where
  | null
  | bool (b : Bool)
  | num (q : ℚ)
  | str (s : String)
  | arr (elems : List Json)
  | obj (fields : List (String × Json))

/-- The Python type name of a JSON value, as it appears in runtime error
messages (`type(v).__name__`). -/
def pyTypeName : Json → String
  | .null => "NoneType"
  | .bool _ => "bool"
  | .num _ => "float"
  | .str _ => "str"
  | .arr _ => "list"
  | .obj _ => "dict"

/-- Python `len(v)` on a JSON value: defined for lists, dicts and strings,
a `TypeError` otherwise.  (CPython's message also names the type; the model
keeps the message free of quote characters.) -/
def pyLen : Json → Except PyExn Nat
  | .arr l => .ok l.length
  | .obj kvs => .ok kvs.length
  | .str s => .ok s.length
  | v => .error (.other ("TypeError: object of type " ++ pyTypeName v ++ " has no len"))

/-- Python `v.get(key, default)`: a dict lookup with default; an
`AttributeError` when `v` is not a dict.  (CPython renders the names inside
single quotes; the model keeps the message free of quote characters.) -/
def pyDictGet (v : Json) (key : String) (dflt : Json) : Except PyExn Json :=
  match v with
  | .obj kvs => .ok ((kvs.lookup key).getD dflt)
  | w => .error (.other ("AttributeError: " ++ pyTypeName w ++ " object has no attribute get"))

/-- Leading and trailing whitespace removal on a character list. -/
def charStrip (cs : List Char) : List Char :=
  ((cs.dropWhile Char.isWhitespace).reverse.dropWhile Char.isWhitespace).reverse

/-- Python `str.strip()` (whitespace form). -/
def pyStrip (s : String) : String := String.mk (charStrip s.toList)

/-- Python `str.lower()` (ASCII range; the inputs this repository
dispatches on are ASCII command words). -/
def pyLower (s : String) : String := String.mk (s.toList.map Char.toLower)

/-- Python `str.startswith(p)`. -/
def pyStartsWith (s p : String) : Bool := p.toList.isPrefixOf s.toList

/-- Python `str.replace(pat, repl)` on character lists, replacing every
occurrence left to right (fuelled by the text length; a step always
consumes at least one character for the non-empty patterns used here). -/
def pyReplaceFuel : Nat → List Char → List Char → List Char → List Char
  | 0, hay, _, _ => hay
  | _ + 1, [], _, _ => []
  | fuel + 1, c :: rest, needle, repl =>
      if needle ≠ [] ∧ needle.isPrefixOf (c :: rest) then
        repl ++ pyReplaceFuel fuel ((c :: rest).drop needle.length) needle repl
      else c :: pyReplaceFuel fuel rest needle repl

def pyReplace (s pat repl : String) : String :=
  String.mk (pyReplaceFuel s.toList.length s.toList pat.toList repl.toList)

/-- Digit-string core of Python `int(...)`: decimal digits with single
underscores allowed between digits (PEP 515), nothing else. -/
def pyIntCore (cs : List Char) : Option Nat :=
  if cs = [] then none
  else if cs.head? = some '_' ∨ cs.getLast? = some '_' then none
  else if (cs.zip cs.tail).any (fun p => p.1 = '_' ∧ p.2 = '_') then none
  else if cs.all (fun c => c.isDigit ∨ c = '_') then
    some ((cs.filter (fun c => c ≠ '_')).foldl (fun a c => a * 10 + (c.toNat - 48)) 0)
  else none

/-- Python `int(s)` on a string: optional surrounding whitespace, optional
sign, decimal digits; `none` models a raised `ValueError`. -/
def pyInt (s : String) : Option Int :=
  match charStrip s.toList with
  | '-' :: rest => (pyIntCore rest).map (fun n => -(n : Int))
  | '+' :: rest => (pyIntCore rest).map (fun n => (n : Int))
  | cs => (pyIntCore cs).map (fun n => (n : Int))

/-- First index at which `needle` occurs in `hay` (Python `str.find` /
the `in` operator), or `none`. -/
def findSub : List Char → List Char → Option Nat
  | [], needle => if needle = [] then some 0 else none
  | c :: rest, needle =>
      if needle.isPrefixOf (c :: rest) then some 0
      else (findSub rest needle).map (· + 1)

/-- The markdown-fence cleanup several agents apply to an LLM response:
`strip()`, then if the text starts with three backticks, remove every
occurrence of a json fence opener and of the bare fence and `strip()` again.
(`str.replace` replaces all occurrences.) -/
def pyCleanResponse (content : String) : String :=
  let r := pyStrip content
  if pyStartsWith r "```" then pyStrip (pyReplace (pyReplace r "```json" "") "```" "")
  else r

/-- Configuration of LangChain's `RecursiveCharacterTextSplitter` as both
RAG agents construct it (`length_function=len` is implicit: the model works
in characters). -/
structure SplitterConfig where
  chunk_size : Nat
  chunk_overlap : Nat
deriving DecidableEq, Repr

/-- The third-party `split_text` call, as an oracle: both RAG agents invoke
the same imported splitter, so both node models share one such function. -/
abbrev Splitter := SplitterConfig → String → Except PyExn (List String)

/-! ## PDF RAG agent (`rag_agents/pdf_rag_agent/agent.py`) -/

namespace Pdf

def CHUNK_SIZE : Nat := 1000

def CHUNK_OVERLAP : Nat := 200

def TOP_K_CHUNKS : Nat := 4

/-- A page as returned by `PyPDFLoader.load()`. -/
structure Page where
  page_content : String

/-- Chunk metadata built by `chunk_text`. -/
structure ChunkMeta where
  filename : String
  page_number : Int
  chunk_index : Nat
  upload_timestamp : String

/-- A chunk dict `{"text": ..., "metadata": ...}`. -/
structure Chunk where
  text : String
  metadata : ChunkMeta

/-- ChromaDB collection handle (opaque third-party object; only its name,
derived from the creation timestamp, is observable from this code). -/
structure VectorStore where
  name : String

/-- A source citation dict built by `process_query`.  `page = none` renders
as the `"?"` default of `metadata.get("page_number", "?")`. -/
structure Source where
  filename : String
  page : Option Int
  chunk_index : Nat

/-- A retrieved chunk: `metadata = none` models the empty-dict default used
when the query result has no metadata list. -/
structure Retrieved where
  text : String
  metadata : Option ChunkMeta

/-- `RAGAgentState` (TypedDict). -/
structure RAGAgentState where
  pdf_path : String
  filename : String
  mode : String
  raw_text : Option String
  page_count : Option Nat
  chunks : Option (List Chunk)
  chunk_count : Option Nat
  vector_store : Option VectorStore
  embedding_status : Option String
  query : String
  retrieved_chunks : Option (List Retrieved)
  sources : Option (List Source)
  answer : Option String
  citations : Option (List String)
  messages : List String
  errors : List String

/-- Page-number extraction inside `chunk_text`: look for a `[Page ` marker,
take the text up to the following `]` (Python `find` returns `-1` when the
bracket is missing, so the slice then ends one character before the end),
and `int(...)` it inside a bare `try: ... except: pass` defaulting to 1. -/
def extractPageNum (chunk : String) : Int :=
  let cs := chunk.toList
  match findSub cs ("[Page ".toList) with
  | none => 1
  | some idx =>
      let pageStart := idx + 6
      let pageEnd :=
        match findSub (cs.drop pageStart) ("]".toList) with
        | some k => pageStart + k
        | none => cs.length - 1
      match pyInt (String.mk ((cs.drop pageStart).take (pageEnd - pageStart))) with
      | some n => n
      | none => 1

/-- One chunk dict of the `for i, chunk_text in enumerate(text_chunks)` loop. -/
def mkChunk (filename now : String) (i : Nat) (text : String) : Chunk :=
  { text := text
    metadata :=
      { filename := filename
        page_number := extractPageNum text
        chunk_index := i
        upload_timestamp := now } }

/-- The chunk list built by `chunk_text` from the splitter output. -/
def chunksOf (filename now : String) (tcs : List String) : List Chunk :=
  tcs.enum.map (fun p => mkChunk filename now p.1 p.2)

/-- NODE 1 `load_pdf`.  `loadRes` is the outcome of
`PyPDFLoader(pdf_path).load()`. -/
def load_pdf (loadRes : Except PyExn (List Page)) (s : RAGAgentState) :
    Except PyExn RAGAgentState :=
  pyTry
    (do
      let pages ← loadRes
      let raw_text := String.join (pages.enum.map (fun p =>
        "\n[Page " ++ toString (p.1 + 1) ++ "]\n" ++ p.2.page_content ++ "\n"))
      pure { s with raw_text := some raw_text, page_count := some pages.length })
    (fun e =>
      { s with raw_text := none, page_count := some 0
               errors := s.errors ++ ["PDF loading failed: " ++ pyStr e] })

/-- NODE 2 `chunk_text`.  The `if not raw_text` guard (None or empty string
is falsy) returns the state unchanged; otherwise the splitter is invoked
with `CHUNK_SIZE`/`CHUNK_OVERLAP` and the chunk dicts are built. -/
def chunk_text (split : Splitter) (now : String) (s : RAGAgentState) :
    Except PyExn RAGAgentState :=
  pyTry
    (do
      match s.raw_text with
      | none => pure s
      | some raw =>
          if raw = "" then pure s
          else do
            let tcs ← split ⟨CHUNK_SIZE, CHUNK_OVERLAP⟩ raw
            let chunks := chunksOf s.filename now tcs
            pure { s with chunks := some chunks, chunk_count := some chunks.length })
    (fun e =>
      { s with chunks := none, chunk_count := some 0
               errors := s.errors ++ ["Text chunking failed: " ++ pyStr e] })

/-- NODE 3 `generate_embeddings`.  `embed` is the ChromaDB client /
embedding-function / `create_collection` / `collection.add` sequence, as an
oracle producing the collection handle. -/
def generate_embeddings (embed : List Chunk → Except PyExn VectorStore)
    (s : RAGAgentState) : Except PyExn RAGAgentState :=
  pyTry
    (do
      match s.chunks with
      | none => pure s
      | some chunks =>
          match chunks with
          | [] => pure s
          | _ => do
            let collection ← embed chunks
            pure { s with vector_store := some collection
                          embedding_status :=
                            some ("Successfully embedded " ++ toString chunks.length ++ " chunks") })
    (fun e =>
      { s with vector_store := none
               embedding_status := some ("Error: " ++ pyStr e)
               errors := s.errors ++ ["Embedding generation failed: " ++ pyStr e] })

/-- The dict returned by `collection.query`: the `documents` and `metadatas`
values can each be `None` (hence `Option`). -/
structure ChromaResults where
  documents : Option (List (List String))
  metadatas : Option (List (List ChunkMeta))

/-- The first metadata row, when `results['metadatas']` is truthy (a
non-`None`, non-empty list). -/
def metaRow (mt : Option (List (List ChunkMeta))) : Option (List ChunkMeta) :=
  match mt with
  | none => none
  | some [] => none
  | some (m0 :: _) => some m0

/-- The `for i, doc in enumerate(results['documents'][0])` loop of
`process_query`: each iteration reads `results['metadatas'][0][i]` when the
metadata list is truthy (which can raise an `IndexError`) and builds a
retrieved-chunk dict and a source dict. -/
def buildEntries (m0 : Option (List ChunkMeta)) :
    Nat → List String → Except PyExn (List Retrieved × List Source)
  | _, [] => .ok ([], [])
  | i, doc :: rest => do
      let md ←
        match m0 with
        | none => pure (none : Option ChunkMeta)
        | some ms =>
            match ms.get? i with
            | some m => pure (some m)
            | none => Except.error (.other "IndexError: list index out of range")
      let tl ← buildEntries m0 (i + 1) rest
      let source : Source :=
        { filename := (md.map (fun m => m.filename)).getD "Unknown"
          page := md.map (fun m => m.page_number)
          chunk_index := (md.map (fun m => m.chunk_index)).getD i }
      .ok (⟨doc, md⟩ :: tl.1, source :: tl.2)

def queryNResults : Nat := TOP_K_CHUNKS

/-- NODE 4 `process_query`.  `queryFn` is `vector_store.query` as an oracle
taking the query text and `n_results`. -/
def process_query (queryFn : String → Nat → Except PyExn ChromaResults)
    (s : RAGAgentState) : Except PyExn RAGAgentState :=
  pyTry
    (do
      match s.vector_store with
      | none =>
          pure { s with retrieved_chunks := none, sources := none
                        errors := s.errors ++ ["No document has been processed yet"] }
      | some _ => do
          let results ← queryFn s.query queryNResults
          match results.documents with
          | some (d0 :: _) => do
              let entries ← buildEntries (metaRow results.metadatas) 0 d0
              pure { s with retrieved_chunks := some entries.1, sources := some entries.2 }
          | _ =>
              pure { s with retrieved_chunks := some [], sources := some [] })
    (fun e =>
      { s with retrieved_chunks := none, sources := none
               errors := s.errors ++ ["Query processing failed: " ++ pyStr e] })

/-- Context text assembled from the retrieved chunks (enumerated, with the
`page_number` metadata or its `"?"` default). -/
def contextOf (retrieved : List Retrieved) : String :=
  String.join (retrieved.enum.map (fun p =>
    let page :=
      match p.2.metadata with
      | some m => toString m.page_number
      | none => "?"
    "\n[Source " ++ toString (p.1 + 1) ++ ", Page " ++ page ++ "]\n" ++ p.2.text ++ "\n"))

/-- One citation string `filename (Page X)`. -/
def citationOf (src : Source) : String :=
  src.filename ++ " (Page " ++ (match src.page with | some n => toString n | none => "?") ++ ")"

/-- `if citation not in citations: citations.append(citation)`. -/
def addCitation (cs : List String) (c : String) : List String :=
  if c ∈ cs then cs else cs ++ [c]

/-- `sources[0]["filename"] if sources else "document"`. -/
def filenameOf (sources : List Source) : String :=
  match sources with
  | s0 :: _ => s0.filename
  | [] => "document"

/-- NODE 5 `generate_answer`.  `llm` is the GPT-4o call, as an oracle taking
the assembled context, the query and the source filename (the constant
prompt template wrapping these three values is third-party configuration and
not modelled as text).  The no-context reply is spelled `could not` here;
the source spells it with an apostrophe. -/
def generate_answer (llm : String → String → String → Except PyExn String)
    (s : RAGAgentState) : Except PyExn RAGAgentState :=
  pyTry
    (do
      match s.retrieved_chunks with
      | none =>
          pure { s with answer := some "I could not find relevant information to answer your question."
                        citations := some [] }
      | some [] =>
          pure { s with answer := some "I could not find relevant information to answer your question."
                        citations := some [] }
      | some retrieved => do
          let context := contextOf retrieved
          let sources := (s.sources).getD []
          let answer ← llm context s.query (filenameOf sources)
          let citations := sources.foldl (fun acc src => addCitation acc (citationOf src)) []
          pure { s with answer := some answer, citations := some citations })
    (fun e =>
      { s with answer := some ("Error generating answer: " ++ pyStr e)
               citations := some []
               errors := s.errors ++ ["Answer generation failed: " ++ pyStr e] })

/-- `route_mode`: conditional entry point on `state.get("mode", "query")`. -/
def route_mode (mode : String) : String :=
  if mode = "process_document" then "load_pdf" else "process_query"

/-- The workflow nodes added by `create_graph`. -/
inductive Node where
  | load_pdf | chunk_text | generate_embeddings | process_query | generate_answer
deriving DecidableEq, Repr

/-- The (unconditional) edges of `create_graph`; `none` is `END`. -/
def nextNode : Node → Option Node
  | .load_pdf => some .chunk_text
  | .chunk_text => some .generate_embeddings
  | .generate_embeddings => none
  | .process_query => some .generate_answer
  | .generate_answer => none

/-- The entry node selected by the conditional entry point. -/
def entryNode (mode : String) : Node :=
  if mode = "process_document" then .load_pdf else .process_query

/-- The sequence of nodes an invocation executes, following the edges from
a start node (with fuel; the graph is finite so 5 suffices). -/
def trace (fuel : Nat) (n : Node) : List Node :=
  match fuel with
  | 0 => []
  | fuel + 1 =>
      n :: (match nextNode n with
            | none => []
            | some m => trace fuel m)

end Pdf

/-! ## Audio RAG agent (`rag_agents/audio_rag_agent/agent.py`) -/

namespace Audio

def CHUNK_SIZE : Nat := 1000

def CHUNK_OVERLAP : Nat := 200

def TOP_K_CHUNKS : Nat := 4

/-- Python `int(x)` on a rational: truncation toward zero. -/
def pyTrunc (q : ℚ) : Int := q.num.tdiv (q.den : Int)

/-- `f"{n:02d}"`: zero-pad a non-negative integer below ten to two digits
(statuses produced here are non-negative). -/
def pad2 (n : Int) : String :=
  if 0 ≤ n ∧ n < 10 then "0" ++ toString n else toString n

/-- `format_timestamp`: seconds to `MM:SS`.  `seconds // 60` is Python floor
division, `seconds % 60` the matching remainder, and `int(...)` truncates. -/
def format_timestamp (seconds : ℚ) : String :=
  let mins := pyTrunc ⌊seconds / 60⌋
  let secs := pyTrunc (seconds - 60 * ⌊seconds / 60⌋)
  pad2 mins ++ ":" ++ pad2 secs

/-- `format_duration`: seconds to a human-readable duration string. -/
def format_duration (seconds : ℚ) : String :=
  if seconds < 60 then toString (pyTrunc seconds) ++ "s"
  else if seconds < 3600 then
    toString (pyTrunc ⌊seconds / 60⌋) ++ "m " ++
      toString (pyTrunc (seconds - 60 * ⌊seconds / 60⌋)) ++ "s"
  else
    toString (pyTrunc ⌊seconds / 3600⌋) ++ "h " ++
      toString (pyTrunc ⌊(seconds - 3600 * ⌊seconds / 3600⌋) / 60⌋) ++ "m"

/-- Chunk metadata with interpolated timestamps. -/
structure AChunkMeta where
  filename : String
  start_time : ℚ
  end_time : ℚ
  timestamp_range : String
  chunk_index : Nat
  upload_timestamp : String

structure AChunk where
  text : String
  metadata : AChunkMeta

structure VectorStore where
  name : String

structure Source where
  filename : String
  timestamp_range : String
  chunk_index : Nat

structure Retrieved where
  text : String
  metadata : Option AChunkMeta

/-- `AudioRAGAgentState` (TypedDict). -/
structure AudioRAGAgentState where
  audio_path : String
  filename : String
  mode : String
  transcript_text : Option String
  transcript_id : Option String
  audio_duration : Option ℚ
  word_count : Option Nat
  chunks : Option (List AChunk)
  chunk_count : Option Nat
  vector_store : Option VectorStore
  embedding_status : Option String
  query : String
  retrieved_chunks : Option (List Retrieved)
  sources : Option (List Source)
  answer : Option String
  citations : Option (List String)
  messages : List String
  errors : List String

/-- `(chars / total_chars) * audio_duration if total_chars > 0 else 0`:
linear timestamp interpolation.  When `audio_duration` is `None` and the
multiplication is reached, Python raises a `TypeError`. -/
def timeOf (dur : Option ℚ) (total chars : Nat) : Except PyExn ℚ :=
  if 0 < total then
    match dur with
    | some d => .ok (((chars : ℚ) / (total : ℚ)) * d)
    | none => .error (.other "TypeError: unsupported operand types float and NoneType")
  else .ok 0

/-- `sum(len(c) for c in text_chunks[:i])`. -/
def startCharOf (tcs : List String) (i : Nat) : Nat :=
  ((tcs.take i).map String.length).sum

/-- One chunk dict of the audio `for i, chunk_text in enumerate(text_chunks)`
loop, for a known duration `d`. -/
def mkAChunk (filename now : String) (d : ℚ) (total : Nat) (tcs : List String)
    (i : Nat) (text : String) : AChunk :=
  let startChar := startCharOf tcs i
  let endChar := startChar + text.length
  let start_time : ℚ := if 0 < total then ((startChar : ℚ) / (total : ℚ)) * d else 0
  let end_time : ℚ := if 0 < total then ((endChar : ℚ) / (total : ℚ)) * d else 0
  { text := text
    metadata :=
      { filename := filename
        start_time := start_time
        end_time := end_time
        timestamp_range := format_timestamp start_time ++ " - " ++ format_timestamp end_time
        chunk_index := i
        upload_timestamp := now } }

/-- One loop iteration with a possibly-`None` duration. -/
def mkAChunkE (filename now : String) (dur : Option ℚ) (total : Nat)
    (tcs : List String) (i : Nat) (text : String) : Except PyExn AChunk := do
  let startChar := startCharOf tcs i
  let endChar := startChar + text.length
  let start_time ← timeOf dur total startChar
  let end_time ← timeOf dur total endChar
  .ok { text := text
        metadata :=
          { filename := filename
            start_time := start_time
            end_time := end_time
            timestamp_range := format_timestamp start_time ++ " - " ++ format_timestamp end_time
            chunk_index := i
            upload_timestamp := now } }

/-- The enumerated chunk-building loop. -/
def achunksGo (filename now : String) (dur : Option ℚ) (total : Nat)
    (tcs : List String) : List (Nat × String) → Except PyExn (List AChunk)
  | [] => .ok []
  | (i, c) :: rest => do
      let ch ← mkAChunkE filename now dur total tcs i c
      let tl ← achunksGo filename now dur total tcs rest
      .ok (ch :: tl)

/-- The chunk list built by the audio `chunk_text` from the splitter output. -/
def achunksOfE (filename now : String) (dur : Option ℚ) (total : Nat)
    (tcs : List String) : Except PyExn (List AChunk) :=
  achunksGo filename now dur total tcs tcs.enum

/-- Pure form of the loop for a known duration. -/
def achunksOf (filename now : String) (d : ℚ) (total : Nat)
    (tcs : List String) : List AChunk :=
  tcs.enum.map (fun p => mkAChunk filename now d total tcs p.1 p.2)

/-- The AssemblyAI transcript statuses the polling loop distinguishes. -/
inductive TranscriptStatus where
  | completed | error | queued | processing
deriving DecidableEq, Repr

/-- The loop guard
`transcript.status not in [TranscriptStatus.completed, TranscriptStatus.error]`. -/
def pollPending (st : TranscriptStatus) : Bool :=
  !(st == .completed || st == .error)

/-- The status-polling loop of `transcribe_audio`, observed through fuel:
`pollExitsWithin n st` says the loop exits within `n` iterations when the
transcript's status is `st`.  The loop body is only `await asyncio.sleep(3)`
— it never re-reads or updates `transcript.status`, so the status seen by
the guard is the same on every iteration. -/
def pollExitsWithin : Nat → TranscriptStatus → Bool
  | 0, st => !(pollPending st)
  | n + 1, st => if pollPending st then pollExitsWithin n st else true

/-- NODE 2 `chunk_text` (audio).  Same shape as the PDF agent's; the
timestamps interpolate over `audio_duration`. -/
def chunk_text (split : Splitter) (now : String) (s : AudioRAGAgentState) :
    Except PyExn AudioRAGAgentState :=
  pyTry
    (do
      match s.transcript_text with
      | none => pure s
      | some transcript =>
          if transcript = "" then pure s
          else do
            let tcs ← split ⟨CHUNK_SIZE, CHUNK_OVERLAP⟩ transcript
            let chunks ← achunksOfE s.filename now s.audio_duration transcript.length tcs
            pure { s with chunks := some chunks, chunk_count := some chunks.length })
    (fun e =>
      { s with chunks := none, chunk_count := some 0
               errors := s.errors ++ ["Text chunking failed: " ++ pyStr e] })

def queryNResults : Nat := TOP_K_CHUNKS

/-- `collection.query` result dict for the audio agent. -/
structure ChromaResults where
  documents : Option (List (List String))
  metadatas : Option (List (List AChunkMeta))

def metaRow (mt : Option (List (List AChunkMeta))) : Option (List AChunkMeta) :=
  match mt with
  | none => none
  | some [] => none
  | some (m0 :: _) => some m0

/-- The audio `process_query` extraction loop; sources carry the
`timestamp_range` (default `"?"`) instead of a page number. -/
def buildEntries (m0 : Option (List AChunkMeta)) :
    Nat → List String → Except PyExn (List Retrieved × List Source)
  | _, [] => .ok ([], [])
  | i, doc :: rest => do
      let md ←
        match m0 with
        | none => pure (none : Option AChunkMeta)
        | some ms =>
            match ms.get? i with
            | some m => pure (some m)
            | none => Except.error (.other "IndexError: list index out of range")
      let tl ← buildEntries m0 (i + 1) rest
      let source : Source :=
        { filename := (md.map (fun m => m.filename)).getD "Unknown"
          timestamp_range := (md.map (fun m => m.timestamp_range)).getD "?"
          chunk_index := (md.map (fun m => m.chunk_index)).getD i }
      .ok (⟨doc, md⟩ :: tl.1, source :: tl.2)

/-- NODE 4 `process_query` (audio). -/
def process_query (queryFn : String → Nat → Except PyExn ChromaResults)
    (s : AudioRAGAgentState) : Except PyExn AudioRAGAgentState :=
  pyTry
    (do
      match s.vector_store with
      | none =>
          pure { s with retrieved_chunks := none, sources := none
                        errors := s.errors ++ ["No audio has been processed yet"] }
      | some _ => do
          let results ← queryFn s.query queryNResults
          match results.documents with
          | some (d0 :: _) => do
              let entries ← buildEntries (metaRow results.metadatas) 0 d0
              pure { s with retrieved_chunks := some entries.1, sources := some entries.2 }
          | _ =>
              pure { s with retrieved_chunks := some [], sources := some [] })
    (fun e =>
      { s with retrieved_chunks := none, sources := none
               errors := s.errors ++ ["Query processing failed: " ++ pyStr e] })

/-- Entry routing `route_mode` of the audio agent. -/
def entryNode (mode : String) : String :=
  if mode = "process_audio" then "transcribe_audio" else "process_query"

/-- The workflow nodes added by the audio `create_graph`. -/
inductive Node where
  | transcribe_audio | chunk_text | generate_embeddings | process_query | generate_answer
deriving DecidableEq, Repr

/-- The (unconditional) edges of the audio `create_graph`; `none` is `END`. -/
def nextNode : Node → Option Node
  | .transcribe_audio => some .chunk_text
  | .chunk_text => some .generate_embeddings
  | .generate_embeddings => none
  | .process_query => some .generate_answer
  | .generate_answer => none

def entry (mode : String) : Node :=
  if mode = "process_audio" then .transcribe_audio else .process_query

def trace (fuel : Nat) (n : Node) : List Node :=
  match fuel with
  | 0 => []
  | fuel + 1 =>
      n :: (match nextNode n with
            | none => []
            | some m => trace fuel m)

end Audio

/-! ## Bank statement analyzer (`ai_agents/bank_statement_analyzer/agent.py`) -/

namespace Bank

def MIN_RECURRING_COUNT : Nat := 2

def TOP_MERCHANTS_LIMIT : Nat := 10

/-- Python truthiness of a JSON value. -/
def pyFalsyJson : Json → Bool
  | .null => true
  | .bool b => !b
  | .num q => q == 0
  | .str s => s == ""
  | .arr l => l.isEmpty
  | .obj kvs => kvs.isEmpty

/-- Python truthiness of an optional string (`None` and `""` are falsy). -/
def pyFalsyStrOpt : Option String → Bool
  | none => true
  | some t => t == ""

/-- A categorized transaction in the shape the repository's prompts mandate:
`{"date", "description", "amount", "type", "category"}` (`ttype` models the
`"type"` key). -/
structure Txn where
  date : String
  description : String
  amount : ℚ
  ttype : String
  category : String

/-- The JSON encoding of such a transaction dict. -/
def encodeTxn (t : Txn) : Json :=
  .obj [("date", .str t.date), ("description", .str t.description),
        ("amount", .num t.amount), ("type", .str t.ttype), ("category", .str t.category)]

/-- Dynamic access of one transaction dict's fields, as `analyze_spending`
performs it (`txn["type"]`, `txn["amount"]`, ...).  A missing key or a
wrongly-typed value raises; the model surfaces the raise up front rather
than at the individual arithmetic step, which only changes the text of the
stashed message, not the structure of the result. -/
def decodeTxn : Json → Except PyExn Txn
  | .obj kvs =>
      match kvs.lookup "date", kvs.lookup "description", kvs.lookup "amount",
            kvs.lookup "type", kvs.lookup "category" with
      | some (.str d), some (.str ds), some (.num a), some (.str ty), some (.str c) =>
          .ok { date := d, description := ds, amount := a, ttype := ty, category := c }
      | _, _, _, _, _ => .error (.other "KeyError")
  | v => .error (.other ("TypeError: " ++ pyTypeName v ++ " is not a transaction dict"))

/-- Iterating `for txn in transactions` over the parsed JSON value. -/
def decodeTxns : Json → Except PyExn (List Txn)
  | .arr l => l.mapM decodeTxn
  | v => .error (.other ("TypeError: " ++ pyTypeName v ++ " object is not iterable"))

/-- Python `round(x, 2)` on the rational idealisation of floats (the tie
rule is immaterial to every claim below). -/
def round2 (q : ℚ) : ℚ := ((round (q * 100) : ℤ) : ℚ) / 100

/-- `defaultdict(float)` accumulation: `m[k] += v`, preserving insertion
order. -/
def addTo (m : List (String × ℚ)) (k : String) (v : ℚ) : List (String × ℚ) :=
  match m with
  | [] => [(k, v)]
  | (k2, v2) :: rest => if k2 = k then (k2, v2 + v) :: rest else (k2, v2) :: addTo rest k v

def isDebit (t : Txn) : Bool := t.ttype == "debit"

def isCredit (t : Txn) : Bool := t.ttype == "credit"

/-- `sum(t["amount"] for t in transactions if t["type"] == "debit")`. -/
def debitSum (txns : List Txn) : ℚ := ((txns.filter isDebit).map Txn.amount).sum

/-- `sum(t["amount"] for t in transactions if t["type"] == "credit")`. -/
def creditSum (txns : List Txn) : ℚ := ((txns.filter isCredit).map Txn.amount).sum

/-- Category-wise debit totals. -/
def categoryTotals (txns : List Txn) : List (String × ℚ) :=
  txns.foldl (fun m t => if isDebit t then addTo m t.category t.amount else m) []

/-- Daily debit totals keyed by `txn["date"]`. -/
def dailySpending (txns : List Txn) : List (String × ℚ) :=
  txns.foldl (fun m t => if isDebit t then addTo m t.date t.amount else m) []

/-- `defaultdict(lambda: {"total": 0, "count": 0})` keyed by the
50-character-truncated description. -/
def addMerchant (m : List (String × ℚ × Nat)) (k : String) (v : ℚ) :
    List (String × ℚ × Nat) :=
  match m with
  | [] => [(k, (v, 1))]
  | (k2, t2, c2) :: rest =>
      if k2 = k then (k2, t2 + v, c2 + 1) :: rest else (k2, t2, c2) :: addMerchant rest k v

def merchantTotals (txns : List Txn) : List (String × ℚ × Nat) :=
  txns.foldl (fun m t => if isDebit t then addMerchant m (t.description.take 50) t.amount else m) []

structure Merchant where
  merchant : String
  total : ℚ
  count : Nat

/-- Top merchants: sorted by total, descending and stable (Python
`sorted(..., reverse=True)`), truncated to `TOP_MERCHANTS_LIMIT`. -/
def topMerchants (txns : List Txn) : List Merchant :=
  (((merchantTotals txns).mergeSort (fun a b => b.2.1 ≤ a.2.1)).take TOP_MERCHANTS_LIMIT).map
    (fun p => { merchant := p.1, total := p.2.1, count := p.2.2 })

/-- `defaultdict(list)` grouping debit transactions by full description. -/
def addGroup (m : List (String × List Txn)) (k : String) (t : Txn) :
    List (String × List Txn) :=
  match m with
  | [] => [(k, [t])]
  | (k2, l2) :: rest =>
      if k2 = k then (k2, l2 ++ [t]) :: rest else (k2, l2) :: addGroup rest k t

def merchantTransactions (txns : List Txn) : List (String × List Txn) :=
  txns.foldl (fun m t => if isDebit t then addGroup m t.description t else m) []

structure Recurring where
  merchant : String
  category : String
  frequency : String
  avg_amount : ℚ
  total : ℚ
  transactions : List Txn

/-- Recurring-expense detection: groups of at least `MIN_RECURRING_COUNT`
transactions, summarised and then sorted by total, descending. -/
def recurringExpenses (txns : List Txn) : List Recurring :=
  (((merchantTransactions txns).filterMap (fun p =>
      match p.2 with
      | [] => none
      | t0 :: _ =>
          if MIN_RECURRING_COUNT ≤ p.2.length then
            some { merchant := p.1
                   category := t0.category
                   frequency := toString p.2.length ++ "x in statement period"
                   avg_amount := round2 ((p.2.map Txn.amount).sum / (p.2.length : ℚ))
                   total := round2 (p.2.map Txn.amount).sum
                   transactions := p.2 }
          else none)).mergeSort (fun a b => b.total ≤ a.total))

/-- `BankStatementState` (TypedDict). -/
structure BankState where
  pdf_path : String
  filename : String
  raw_text : Option String
  page_count : Option Nat
  transactions : Option Json
  transaction_count : Option Nat
  parsing_metadata : Option (Json × Json)
  categorized_transactions : Option Json
  category_totals : Option (List (String × ℚ))
  total_debit : Option ℚ
  total_credit : Option ℚ
  net_balance_change : Option ℚ
  recurring_expenses : Option (List Recurring)
  daily_spending : Option (List (String × ℚ))
  top_merchants : Option (List Merchant)
  chart_data : Option (Option (List (String × ℚ)) × Option (List (String × ℚ)) × Option (List Merchant))
  messages : List String
  errors : List String

/-- NODE 1 `load_pdf` (bank): pages are joined with `"\n"`. -/
def load_pdf (loadRes : Except PyExn (List Pdf.Page)) (s : BankState) :
    Except PyExn BankState :=
  pyTry
    (do
      let pages ← loadRes
      pure { s with raw_text := some (String.intercalate "\n" (pages.map Pdf.Page.page_content))
                    page_count := some pages.length })
    (fun e =>
      { s with raw_text := none, page_count := some 0
               errors := s.errors ++ ["PDF loading failed: " ++ pyStr e] })

/-- NODE 2 `parse_transactions`.  The `if not state["raw_text"]` guard sits
before the `try`.  `llmRes` is the LLM call's outcome (`response.content`),
`loads` is `json.loads`.  The response is fence-cleaned; a
`json.JSONDecodeError` is caught separately from other exceptions (such as
the `AttributeError` raised by `.get` on valid JSON that is not an object). -/
def parse_transactions (loads : String → Except PyExn Json)
    (llmRes : Except PyExn String) (s : BankState) : Except PyExn BankState :=
  if pyFalsyStrOpt s.raw_text then .ok s
  else
    pyTryJson
      (do
        let content ← llmRes
        let result_text := pyCleanResponse content
        let parsed ← loads result_text
        let transactions ← pyDictGet parsed "transactions" (Json.arr [])
        let tcount ← pyLen transactions
        let account ← pyDictGet parsed "account_number" (Json.str "Unknown")
        let period ← pyDictGet parsed "statement_period" (Json.str "Unknown")
        pure { s with transactions := some transactions
                      transaction_count := some tcount
                      parsing_metadata := some (account, period) })
      (fun _m =>
        { s with transactions := none, transaction_count := some 0
                 errors := s.errors ++ ["Transaction parsing failed: Invalid JSON from LLM"] })
      (fun e =>
        { s with transactions := none, transaction_count := some 0
                 errors := s.errors ++ ["Transaction parsing failed: " ++ pyStr e] })

/-- NODE 3 `categorize_transactions`: one batched LLM call whose JSON
response becomes `categorized_transactions`; on any failure it falls back
to the uncategorized `transactions`. -/
def categorize_transactions (loads : String → Except PyExn Json)
    (llmRes : Except PyExn String) (s : BankState) : Except PyExn BankState :=
  match s.transactions with
  | none => .ok s
  | some j =>
      if pyFalsyJson j then .ok s
      else
        pyTry
          (do
            let content ← llmRes
            let parsed ← loads (pyCleanResponse content)
            pure { s with categorized_transactions := some parsed })
          (fun e =>
            { s with categorized_transactions := s.transactions
                     errors := s.errors ++ ["Categorization failed: " ++ pyStr e] })

/-- The pure analytics computed by `analyze_spending` over well-formed
transaction dicts. -/
def analysisResult (txns : List Txn) (s : BankState) : BankState :=
  { s with category_totals := some (categoryTotals txns)
           total_debit := some (round2 (debitSum txns))
           total_credit := some (round2 (creditSum txns))
           net_balance_change := some (round2 (creditSum txns - debitSum txns))
           recurring_expenses := some (recurringExpenses txns)
           daily_spending := some (dailySpending txns)
           top_merchants := some (topMerchants txns) }

/-- NODE 4 `analyze_spending`.  The `if not state["categorized_transactions"]`
guard sits before the `try`; the body performs only dictionary arithmetic
on the transaction dicts (any dynamic-typing failure lands in the broad
handler). -/
def analyze_spending (s : BankState) : Except PyExn BankState :=
  match s.categorized_transactions with
  | none => .ok s
  | some j =>
      if pyFalsyJson j then .ok s
      else
        pyTry
          (do
            let txns ← decodeTxns j
            pure (analysisResult txns s))
          (fun e => { s with errors := s.errors ++ ["Analysis failed: " ++ pyStr e] })

/-- NODE 5 `prepare_visualizations`: packs the three analysis results into
`chart_data` (guarded on a truthy `category_totals`). -/
def prepare_visualizations (s : BankState) : Except PyExn BankState :=
  match s.category_totals with
  | none => .ok s
  | some [] => .ok s
  | some _ =>
      pyTry
        (pure { s with chart_data := some (s.category_totals, s.daily_spending, s.top_merchants) })
        (fun e => { s with errors := s.errors ++ ["Visualization prep failed: " ++ pyStr e] })

/-- The workflow nodes added by the bank `create_graph`. -/
inductive Node where
  | load_pdf | parse_transactions | categorize_transactions | analyze_spending
  | prepare_visualizations
deriving DecidableEq, Repr

/-- The sequential edges of the bank `create_graph`; `none` is `END`.  The
entry point is `load_pdf`. -/
def nextNode : Node → Option Node
  | .load_pdf => some .parse_transactions
  | .parse_transactions => some .categorize_transactions
  | .categorize_transactions => some .analyze_spending
  | .analyze_spending => some .prepare_visualizations
  | .prepare_visualizations => none

def trace (fuel : Nat) (n : Node) : List Node :=
  match fuel with
  | 0 => []
  | fuel + 1 =>
      n :: (match nextNode n with
            | none => []
            | some m => trace fuel m)

end Bank

/-! ## News aggregator agent (`ai_agents/news_aggregator_agent/main.py`) -/

namespace News

/-- An article dict from the newsdata.io response (`art.get(...)` defaults
apply to missing keys). -/
structure RawArticle where
  title : Option String
  description : Option String
  source_id : Option String
  link : Option String
  pubDate : Option String
  category : Option (List String)

/-- `resp.json()`: only the `results` key is read (`data.get("results", [])`). -/
structure NewsData where
  results : Option (List RawArticle)

/-- An article dict as this agent builds it; `index` is written by the
re-indexing pass (it is absent before that pass, modelled as 0). -/
structure Article where
  title : String
  description : String
  source : String
  url : String
  publishedAt : String
  category : List String
  index : Nat

/-- The trimmed `AgentState` of the news agent: its error channel is a
single string field, not a list. -/
structure NewsState where
  all_news : List Article
  selected_news : Option Article
  deep_dive_data : List Article
  analysis : String
  error : String

/-- NODE `fetch_news_node`: fetch headlines (the HTTP GET /
`raise_for_status` / `resp.json()` sequence is the oracle `resp`), keep the
first 10, prepend them to the existing list and re-index the combined list
from 1. -/
def fetch_news_node (resp : Except PyExn NewsData) (s : NewsState) :
    Except PyExn NewsState :=
  pyTry
    (do
      let data ← resp
      let articles := (data.results.getD []).take 10
      let new_articles := articles.map (fun a =>
        { title := a.title.getD "No title"
          description := a.description.getD "No description"
          source := a.source_id.getD "Unknown"
          url := a.link.getD ""
          publishedAt := a.pubDate.getD ""
          category := a.category.getD []
          index := 0 : Article })
      let combined := new_articles ++ s.all_news
      let combined := combined.enum.map (fun p => { p.2 with index := p.1 + 1 })
      pure { s with all_news := combined, error := "" })
    (fun e => { s with error := pyStr e })

/-- The two single-purpose graphs of the news agent are straight lines:
`fetch_news → END` and `deep_dive → analyze → END`. -/
inductive Node where
  | fetch_news | deep_dive | analyze
deriving DecidableEq, Repr

def fetchNext : Node → Option Node
  | _ => none

def deepDiveNext : Node → Option Node
  | .deep_dive => some .analyze
  | _ => none

end News

/-! ## Itinerary agent (`ai_agents/itinerary_agent/agent.py`) -/

namespace Itinerary

/-- `ItineraryState` (TypedDict); `locations` entries are left abstract as
name strings (no claim inspects them). -/
structure ItineraryState where
  destination : String
  duration : String
  interests : String
  budget : String
  draft_itinerary : String
  user_approved : Bool
  user_modifications : String
  raw_itinerary : String
  formatted_itinerary : String
  locations : List String
  messages : List String

/-- NODE `generate_draft_itinerary_node`: one LLM call, fence-clean the
response, store it as the draft.  On failure the draft becomes an error
string and the messages channel receives nothing (`"messages": []`). -/
def generate_draft_itinerary_node (llmRes : Except PyExn String)
    (s : ItineraryState) : Except PyExn ItineraryState :=
  pyTry
    (do
      let content ← llmRes
      pure { s with draft_itinerary := pyCleanResponse content
                    messages := s.messages ++ [content] })
    (fun e => { s with draft_itinerary := "Error: " ++ pyStr e })

/-- The two itinerary graphs are straight lines: `generate_draft → END` and
`generate_itinerary → extract_locations → format_output → END`. -/
inductive Node where
  | generate_draft | generate_itinerary | extract_locations | format_output
deriving DecidableEq, Repr

def draftNext : Node → Option Node
  | _ => none

def finalNext : Node → Option Node
  | .generate_itinerary => some .extract_locations
  | .extract_locations => some .format_output
  | _ => none

def finalTrace (fuel : Nat) (n : Node) : List Node :=
  match fuel with
  | 0 => []
  | fuel + 1 =>
      n :: (match finalNext n with
            | none => []
            | some m => finalTrace fuel m)

end Itinerary

/-! ## Writing agent (`ai_agents/writing_agent/blogger.py`) -/

namespace Blogger

/-- A LangChain message as far as this agent observes it: its content, its
`type` (`"ai"`, `"tool"`, `"human"`) and whether it carries tool calls. -/
structure BMsg where
  content : String
  mtype : String
  tool_calls : Bool

/-- `BlogState` (TypedDict); `social_posts` is the single-key dict the
social node builds. -/
structure BlogState where
  messages : List BMsg
  raw_pointers : Option String
  enriched_pointers : Option String
  outline : Option String
  blog_draft : Option String
  edited_blog : Option String
  social_posts : Option (List (String × String))
  approved_stage : Option String
  calling_node : Option String

/-- NODE `writer_node`: a prompt-chain LLM call followed by storing the
draft.  The body has no `try`/`except`, so a raising LLM call propagates
out of the node. -/
def writer_node (llmRes : Except PyExn BMsg) (s : BlogState) :
    Except PyExn BlogState := do
  let response ← llmRes
  .ok { s with messages := s.messages ++ [response]
               blog_draft := some response.content }

/-- NODE `editor_node` — same unguarded shape. -/
def editor_node (llmRes : Except PyExn BMsg) (s : BlogState) :
    Except PyExn BlogState := do
  let response ← llmRes
  .ok { s with messages := s.messages ++ [response]
               edited_blog := some response.content }

/-- NODE `social_node` — same unguarded shape. -/
def social_node (llmRes : Except PyExn BMsg) (s : BlogState) :
    Except PyExn BlogState := do
  let response ← llmRes
  .ok { s with messages := s.messages ++ [response]
               social_posts := some [("content", response.content)] }

/-- NODE `requirements_node`: the LLM (with the search tool bound) may
request tool calls; `calling_node` records who asked for tools. -/
def requirements_node (llmRes : Except PyExn BMsg) (s : BlogState) :
    Except PyExn BlogState := do
  let response ← llmRes
  .ok { s with messages := s.messages ++ [response]
               calling_node := if response.tool_calls then some "requirements" else none }

/-- NODE `planner_node`: like `requirements_node`, additionally saving the
outline when no tools were requested. -/
def planner_node (llmRes : Except PyExn BMsg) (s : BlogState) :
    Except PyExn BlogState := do
  let response ← llmRes
  .ok { s with messages := s.messages ++ [response]
               outline := if response.tool_calls then s.outline else some response.content
               calling_node := if response.tool_calls then some "planner" else none }

/-- The graph nodes added to the `StateGraph` builder. -/
inductive Node where
  | requirements | planner | writer | editor | social | tools
deriving DecidableEq, Repr

/-- Executions of the compiled blogger graph, abstracted to what routing
observes: whether the last message carries tool calls, and `calling_node`.
The oracle list supplies, per LLM call of `requirements`/`planner`, whether
the response requests tools (`[]` means never).  `route_after_requirements`
and `route_after_planner` send tool-calling responses to `tools`;
`route_after_tools` returns to `calling_node` (defaulting to
`requirements`); `writer → editor → social → END` is unconditional.
Interrupts (`interrupt_before`) pause and resume the same sequence and are
transparent to the order of node execution. -/
def run (fuel : Nat) (oracle : List Bool) (n : Node) (callingNode : Option String) :
    List Node :=
  match fuel with
  | 0 => []
  | fuel + 1 =>
      n ::
        (match n with
         | .requirements =>
             let t := oracle.headD false
             let rest := oracle.tail
             if t then run fuel rest .tools (some "requirements")
             else run fuel rest .planner none
         | .planner =>
             let t := oracle.headD false
             let rest := oracle.tail
             if t then run fuel rest .tools (some "planner")
             else run fuel rest .writer none
         | .tools =>
             if callingNode = some "planner" then run fuel oracle .planner callingNode
             else run fuel oracle .requirements callingNode
         | .writer => run fuel oracle .editor callingNode
         | .editor => run fuel oracle .social callingNode
         | .social => [])

/-- What the `run()` loop does with one line read from standard input:
`q` (case-insensitive) quits, `continue` or a blank line resumes the
paused graph without a new message, anything else is fed back into the
graph as a new human message (which also resumes it). -/
inductive RunAction where
  | quit | resume | feedback (text : String)
deriving DecidableEq, Repr

def runDispatch (userInput : String) : RunAction :=
  if pyLower userInput = "q" then .quit
  else if pyLower userInput = "continue" ∨ pyStrip userInput = "" then .resume
  else .feedback userInput

/-- The checkpoint positions of the compiled graph
(`interrupt_before=["planner", "writer", "editor", "social"]`). -/
inductive Stage where
  | beforePlanner | beforeWriter | beforeEditor | beforeSocial | done
deriving DecidableEq, Repr

/-- `graph.stream(...)` runs from one checkpoint to the next (or to END). -/
def advance : Stage → Stage
  | .beforePlanner => .beforeWriter
  | .beforeWriter => .beforeEditor
  | .beforeEditor => .beforeSocial
  | .beforeSocial => .done
  | .done => .done

inductive SessionEnd where
  | completed | quitByUser | ranOut
deriving DecidableEq, Repr

/-- The interactive `while True` loop of `run()`: look at the snapshot's
next node (`done` means no next node: print the final outputs and stop);
otherwise read a command and dispatch it.  Both `resume` and `feedback`
stream the graph to its next checkpoint. -/
def runLoop : List String → Stage → SessionEnd
  | _, .done => .completed
  | [], _ => .ranOut
  | inp :: rest, st =>
      match runDispatch inp with
      | .quit => .quitByUser
      | .resume => runLoop rest (advance st)
      | .feedback _ => runLoop rest (advance st)

end Blogger

/-! ## Concrete states and oracles used as evaluation inputs -/

/-- The initial state dict built by `run_document_processing`. -/
def pdfState0 : Pdf.RAGAgentState :=
  { pdf_path := "doc.pdf", filename := "doc.pdf", mode := "process_document"
    raw_text := none, page_count := none, chunks := none, chunk_count := none
    vector_store := none, embedding_status := none, query := ""
    retrieved_chunks := none, sources := none, answer := none, citations := none
    messages := [], errors := [] }

/-- The initial state dict built by `run_audio_processing`. -/
def audioState0 : Audio.AudioRAGAgentState :=
  { audio_path := "talk.mp3", filename := "talk.mp3", mode := "process_audio"
    transcript_text := none, transcript_id := none, audio_duration := none
    word_count := none, chunks := none, chunk_count := none
    vector_store := none, embedding_status := none, query := ""
    retrieved_chunks := none, sources := none, answer := none, citations := none
    messages := [], errors := [] }

/-- The initial state dict built by `run_analyzer`. -/
def bankState0 : Bank.BankState :=
  { pdf_path := "statement.pdf", filename := "statement.pdf"
    raw_text := none, page_count := none, transactions := none
    transaction_count := none, parsing_metadata := none
    categorized_transactions := none, category_totals := none
    total_debit := none, total_credit := none, net_balance_change := none
    recurring_expenses := none, daily_spending := none, top_merchants := none
    chart_data := none, messages := [], errors := [] }

/-- An empty blogger state. -/
def blogState0 : Blogger.BlogState :=
  { messages := [], raw_pointers := none, enriched_pointers := none
    outline := none, blog_draft := none, edited_blog := none
    social_posts := none, approved_stage := none, calling_node := none }

/-- A one-page load result for evaluating `load_pdf`. -/
def pdfPages0 : List Pdf.Page := [⟨"hello"⟩]

/-- The state `load_pdf` produces from `pdfState0` and `pdfPages0`. -/
def pdfLoaded0 : Pdf.RAGAgentState :=
  { pdfState0 with raw_text := some "\n[Page 1]\nhello\n", page_count := some 1 }

/-- A splitter outcome that cuts a four-character text into two halves
(what the recursive splitter does to text shorter than `chunk_size` is a
single chunk; this stands for a generic two-chunk outcome). -/
def twoChunkSplit : Splitter := fun _ _ => .ok ["ab", "cd"]

def c4PdfState : Pdf.RAGAgentState := { pdfState0 with raw_text := some "abcd" }

def c4AudioState : Audio.AudioRAGAgentState :=
  { audioState0 with transcript_text := some "abcd", audio_duration := some 10 }

def c4PdfOut : Pdf.RAGAgentState :=
  { c4PdfState with chunks := some (Pdf.chunksOf c4PdfState.filename "n1" ["ab", "cd"])
                    chunk_count := some 2 }

def c4AudioOut : Audio.AudioRAGAgentState :=
  { c4AudioState with
      chunks := some (Audio.achunksOf c4AudioState.filename "n2" 10 4 ["ab", "cd"])
      chunk_count := some 2 }

/-- `json.loads` restricted to the inputs of the C5 counterexample: the
text `[]` parses to the empty JSON array; everything else is irrelevant
and treated as a decode error. -/
def c5loads : String → Except PyExn Json := fun t =>
  if t = "[]" then .ok (.arr []) else .error (.jsonDecode "Expecting value")

def c5state : Bank.BankState := { bankState0 with raw_text := some "statement text" }

/-- `json.loads` for the C5 witness: a JSON object with a two-element
`transactions` list. -/
def c5wloads : String → Except PyExn Json := fun _ =>
  .ok (.obj [("transactions", .arr [.num 1, .num 2])])

/-- A two-transaction statement (one debit, one credit) for evaluating
`analyze_spending`. -/
def c8txns : List Bank.Txn :=
  [ { date := "01-01-2025", description := "Zomato", amount := 100
      ttype := "debit", category := "Food and Dining" }
  , { date := "02-01-2025", description := "Salary", amount := 5000
      ttype := "credit", category := "Others" } ]

def c8wState : Bank.BankState :=
  { bankState0 with categorized_transactions := some (.arr (c8txns.map Bank.encodeTxn)) }

def c8wOut : Bank.BankState := Bank.analysisResult c8txns c8wState

/-- A state whose `categorized_transactions` is the empty list while an
earlier `total_debit` value is present. -/
def c8emptyState : Bank.BankState :=
  { bankState0 with categorized_transactions := some (.arr []), total_debit := some 5 }

/-- A 1200-character transcript of which the splitter (chunk size 1000,
overlap 200) produces two chunks of 1000 and 400 characters: the second
chunk repeats the 200-character overlap region, so the chunk lengths sum
to 1400 > 1200. -/
def c10state : Audio.AudioRAGAgentState :=
  { audioState0 with transcript_text := some (String.mk (List.replicate 1200 'a'))
                     audio_duration := some 60 }

def c10tcs : List String :=
  [String.mk (List.replicate 1000 'a'), String.mk (List.replicate 400 'a')]

def c10split : Splitter := fun _ _ => .ok c10tcs

def c10result : Except PyExn Audio.AudioRAGAgentState :=
  Audio.chunk_text c10split "t0" c10state

def c10chunks : List Audio.AChunk :=
  match c10result with
  | .ok s => s.chunks.getD []
  | .error _ => []

/-- A placeholder chunk (default argument for list indexing in closed
statements). -/
def dummyAChunk : Audio.AChunk :=
  { text := ""
    metadata := { filename := "", start_time := 0, end_time := 0
                  timestamp_range := "", chunk_index := 0, upload_timestamp := "" } }

/-! ## Helper lemmas -/

theorem pyBind_ok {α β : Type} (a : α) (f : α → Except PyExn β) :
    Except.ok a >>= f = f a := rfl

theorem pyBind_error {α β : Type} (e : PyExn) (f : α → Except PyExn β) :
    (Except.error e : Except PyExn α) >>= f = Except.error e := rfl

theorem okD_ok {σ : Type} {x : Except PyExn σ} {v : σ} (d : σ) (h : x = .ok v) :
    v = okD x d := by rw [h]; rfl

theorem pyTry_isOk {σ : Type} (body : Except PyExn σ) (handler : PyExn → σ) :
    (pyTry body handler).isOk = true := by
  cases body <;> rfl

theorem pyTryJson_isOk {σ : Type} (body : Except PyExn σ) (jh : String → σ)
    (h : PyExn → σ) : (pyTryJson body jh h).isOk = true := by
  cases body with
  | ok v => rfl
  | error e => cases e <;> rfl

theorem runDispatch_quit_iff (s : String) :
    Blogger.runDispatch s = .quit ↔ pyLower s = "q" := by
  unfold Blogger.runDispatch
  split
  · simp [*]
  · split <;> simp_all

theorem runLoop_quit_mem (inputs : List String) :
    ∀ st, Blogger.runLoop inputs st = .quitByUser →
      ∃ inp, inp ∈ inputs ∧ pyLower inp = "q" := by
  induction inputs with
  | nil => intro st h; cases st <;> simp [Blogger.runLoop] at h
  | cons inp rest ih =>
      intro st h
      cases st
      case done => simp [Blogger.runLoop] at h
      all_goals
        simp only [Blogger.runLoop] at h
        cases hd : Blogger.runDispatch inp
        case quit => exact ⟨inp, List.mem_cons_self .., (runDispatch_quit_iff inp).mp hd⟩
        case resume =>
          rw [hd] at h
          obtain ⟨w, hw, hq⟩ := ih _ h
          exact ⟨w, List.mem_cons_of_mem _ hw, hq⟩
        case feedback t =>
          rw [hd] at h
          obtain ⟨w, hw, hq⟩ := ih _ h
          exact ⟨w, List.mem_cons_of_mem _ hw, hq⟩

theorem pyTry_ok_cases {σ : Type} {body : Except PyExn σ} {handler : PyExn → σ}
    {v : σ} (h : pyTry body handler = .ok v) :
    body = .ok v ∨ ∃ e, body = .error e ∧ v = handler e := by
  cases body with
  | ok w => exact Or.inl h
  | error e =>
      have h2 : Except.ok (handler e) = Except.ok v := h
      injection h2 with h2
      exact Or.inr ⟨e, rfl, h2.symm⟩

/-! ## C9 — the transcription status-polling loop -/

/-- C9: the claim says the status-polling loop of `transcribe_audio` exits
after finitely many iterations for every initial transcript status.  The
code's loop body only sleeps and never re-reads `transcript.status`
(contradicting its own comments, which say it checks every 3 seconds), so
the loop exits immediately for `completed`/`error` but never exits — for
any number of iterations — when the status is `queued` or `processing`. -/
theorem transcribe_poll_loop_never_exits_when_pending :
    (∀ n, Audio.pollExitsWithin n .queued = false) ∧
    (∀ n, Audio.pollExitsWithin n .processing = false) ∧
    Audio.pollExitsWithin 0 .completed = true ∧
    Audio.pollExitsWithin 0 .error = true := by
  refine ⟨?_, ?_, rfl, rfl⟩ <;>
    · intro n
      induction n with
      | zero => rfl
      | succ n ih => simpa [Audio.pollExitsWithin, Audio.pollPending] using ih

/-! ## C1 — per-step exception handling -/

/-- C1 counterexample: the writing agent's `writer_node` has no
`try`/`except`; when its LLM call raises, the node does not return normally
but propagates the exception, contrary to the claim that every graph node
catches exceptions and returns the input state with a stashed message. -/
theorem writer_node_propagates_exception :
    Blogger.writer_node (.error (.other "LLM request failed")) blogState0 =
      .error (.other "LLM request failed") ∧
    (Blogger.writer_node (.error (.other "LLM request failed")) blogState0).isOk = false :=
  ⟨rfl, rfl⟩

/-- C1 amended: the RAG agents' nodes, the bank statement analyzer's nodes,
the news aggregator's nodes and the itinerary agent's nodes wrap their
bodies in a broad `try`/`except` and always return normally, stashing a
message string on failure (an entry appended to `errors`, or an error field
set); the writing agent's nodes have no handler and propagate exceptions. -/
theorem per_step_exception_handling_amended :
    (∀ r s, (Pdf.load_pdf r s).isOk = true) ∧
    (∀ e s, Pdf.load_pdf (.error e) s =
      .ok { s with raw_text := none, page_count := some 0
                   errors := s.errors ++ ["PDF loading failed: " ++ pyStr e] }) ∧
    (∀ split now s, (Pdf.chunk_text split now s).isOk = true) ∧
    (∀ embed s, (Pdf.generate_embeddings embed s).isOk = true) ∧
    (∀ qf s, (Pdf.process_query qf s).isOk = true) ∧
    (∀ llm s, (Pdf.generate_answer llm s).isOk = true) ∧
    (∀ split now s, (Audio.chunk_text split now s).isOk = true) ∧
    (∀ r s, (Bank.load_pdf r s).isOk = true) ∧
    (∀ loads llmRes s, (Bank.parse_transactions loads llmRes s).isOk = true) ∧
    (∀ loads llmRes s, (Bank.categorize_transactions loads llmRes s).isOk = true) ∧
    (∀ s, (Bank.analyze_spending s).isOk = true) ∧
    (∀ s, (Bank.prepare_visualizations s).isOk = true) ∧
    (∀ r s, (News.fetch_news_node r s).isOk = true) ∧
    (∀ e s, News.fetch_news_node (.error e) s = .ok { s with error := pyStr e }) ∧
    (∀ r s, (Itinerary.generate_draft_itinerary_node r s).isOk = true) ∧
    (∀ e s, Itinerary.generate_draft_itinerary_node (.error e) s =
      .ok { s with draft_itinerary := "Error: " ++ pyStr e }) ∧
    (∀ e s, Blogger.writer_node (.error e) s = .error e) ∧
    (∀ e s, Blogger.editor_node (.error e) s = .error e) ∧
    (∀ e s, Blogger.social_node (.error e) s = .error e) ∧
    (∀ e s, Blogger.requirements_node (.error e) s = .error e) ∧
    (∀ e s, Blogger.planner_node (.error e) s = .error e) := by
  refine ⟨fun r s => pyTry_isOk .., fun e s => rfl,
          fun split now s => pyTry_isOk .., fun embed s => pyTry_isOk ..,
          fun qf s => pyTry_isOk .., fun llm s => pyTry_isOk ..,
          fun split now s => pyTry_isOk .., fun r s => pyTry_isOk ..,
          ?_, ?_, ?_, ?_,
          fun r s => pyTry_isOk .., fun e s => rfl,
          fun r s => pyTry_isOk .., fun e s => rfl,
          fun e s => rfl, fun e s => rfl, fun e s => rfl, fun e s => rfl, fun e s => rfl⟩
  · intro loads llmRes s
    unfold Bank.parse_transactions
    split
    · rfl
    · exact pyTryJson_isOk ..
  · intro loads llmRes s
    unfold Bank.categorize_transactions
    rcases s.transactions with _ | j
    · rfl
    · dsimp only
      split
      · rfl
      · exact pyTry_isOk ..
  · intro s
    unfold Bank.analyze_spending
    rcases s.categorized_transactions with _ | j
    · rfl
    · dsimp only
      split
      · rfl
      · exact pyTry_isOk ..
  · intro s
    unfold Bank.prepare_visualizations
    rcases s.category_totals with _ | (_ | ⟨p, m⟩)
    · rfl
    · rfl
    · exact pyTry_isOk ..

/-! ## C3 — PDF RAG nodes thread the state through unchanged -/

/-- C3: every node of the PDF RAG agent returns the input state unchanged
except for its own contracted outputs (`load_pdf`: `raw_text`/`page_count`;
`chunk_text`: `chunks`/`chunk_count`; `generate_embeddings`:
`vector_store`/`embedding_status`; `process_query`:
`retrieved_chunks`/`sources`; `generate_answer`: `answer`/`citations`),
besides the accumulating `errors`/`messages` channels; in particular
`load_pdf` leaves `filename`, `mode`, `query`, `chunks`, `vector_store`,
`answer` and every other non-output field exactly equal to its input
value. -/
theorem pdf_nodes_frame :
    (∀ r s s2, Pdf.load_pdf r s = .ok s2 →
      s2.pdf_path = s.pdf_path ∧ s2.filename = s.filename ∧ s2.mode = s.mode ∧
      s2.chunks = s.chunks ∧ s2.chunk_count = s.chunk_count ∧
      s2.vector_store = s.vector_store ∧ s2.embedding_status = s.embedding_status ∧
      s2.query = s.query ∧ s2.retrieved_chunks = s.retrieved_chunks ∧
      s2.sources = s.sources ∧ s2.answer = s.answer ∧ s2.citations = s.citations) ∧
    (∀ split now s s2, Pdf.chunk_text split now s = .ok s2 →
      s2.pdf_path = s.pdf_path ∧ s2.filename = s.filename ∧ s2.mode = s.mode ∧
      s2.raw_text = s.raw_text ∧ s2.page_count = s.page_count ∧
      s2.vector_store = s.vector_store ∧ s2.embedding_status = s.embedding_status ∧
      s2.query = s.query ∧ s2.retrieved_chunks = s.retrieved_chunks ∧
      s2.sources = s.sources ∧ s2.answer = s.answer ∧ s2.citations = s.citations) ∧
    (∀ embed s s2, Pdf.generate_embeddings embed s = .ok s2 →
      s2.pdf_path = s.pdf_path ∧ s2.filename = s.filename ∧ s2.mode = s.mode ∧
      s2.raw_text = s.raw_text ∧ s2.page_count = s.page_count ∧
      s2.chunks = s.chunks ∧ s2.chunk_count = s.chunk_count ∧
      s2.query = s.query ∧ s2.retrieved_chunks = s.retrieved_chunks ∧
      s2.sources = s.sources ∧ s2.answer = s.answer ∧ s2.citations = s.citations) ∧
    (∀ qf s s2, Pdf.process_query qf s = .ok s2 →
      s2.pdf_path = s.pdf_path ∧ s2.filename = s.filename ∧ s2.mode = s.mode ∧
      s2.raw_text = s.raw_text ∧ s2.page_count = s.page_count ∧
      s2.chunks = s.chunks ∧ s2.chunk_count = s.chunk_count ∧
      s2.vector_store = s.vector_store ∧ s2.embedding_status = s.embedding_status ∧
      s2.query = s.query ∧ s2.answer = s.answer ∧ s2.citations = s.citations) ∧
    (∀ llm s s2, Pdf.generate_answer llm s = .ok s2 →
      s2.pdf_path = s.pdf_path ∧ s2.filename = s.filename ∧ s2.mode = s.mode ∧
      s2.raw_text = s.raw_text ∧ s2.page_count = s.page_count ∧
      s2.chunks = s.chunks ∧ s2.chunk_count = s.chunk_count ∧
      s2.vector_store = s.vector_store ∧ s2.embedding_status = s.embedding_status ∧
      s2.query = s.query ∧ s2.retrieved_chunks = s.retrieved_chunks ∧
      s2.sources = s.sources) := by
  refine ⟨?_, ?_, ?_, ?_, ?_⟩
  · intro r s s2 h
    rcases pyTry_ok_cases h with hw | ⟨e, _, hv⟩
    · cases r with
      | ok pages =>
          rw [pyBind_ok] at hw
          injection hw with hw
          subst hw
          exact ⟨rfl, rfl, rfl, rfl, rfl, rfl, rfl, rfl, rfl, rfl, rfl, rfl⟩
      | error e => rw [pyBind_error] at hw; cases hw
    · subst hv
      exact ⟨rfl, rfl, rfl, rfl, rfl, rfl, rfl, rfl, rfl, rfl, rfl, rfl⟩
  · intro split now s s2 h
    rcases pyTry_ok_cases h with hw | ⟨e, _, hv⟩
    · rcases hrw : s.raw_text with _ | raw
      all_goals rw [hrw] at hw
      all_goals dsimp only at hw
      · injection hw with hw
        subst hw
        exact ⟨rfl, rfl, rfl, hrw, rfl, rfl, rfl, rfl, rfl, rfl, rfl, rfl⟩
      · by_cases hraw : raw = ""
        · rw [if_pos hraw] at hw
          injection hw with hw
          subst hw
          exact ⟨rfl, rfl, rfl, hrw, rfl, rfl, rfl, rfl, rfl, rfl, rfl, rfl⟩
        · rw [if_neg hraw] at hw
          cases hsp : split ⟨Pdf.CHUNK_SIZE, Pdf.CHUNK_OVERLAP⟩ raw with
          | ok tcs =>
              rw [hsp, pyBind_ok] at hw
              injection hw with hw
              subst hw
              exact ⟨rfl, rfl, rfl, rfl, rfl, rfl, rfl, rfl, rfl, rfl, rfl, rfl⟩
          | error e => rw [hsp, pyBind_error] at hw; cases hw
    · subst hv
      exact ⟨rfl, rfl, rfl, rfl, rfl, rfl, rfl, rfl, rfl, rfl, rfl, rfl⟩
  · intro embed s s2 h
    rcases pyTry_ok_cases h with hw | ⟨e, _, hv⟩
    · rcases hck : s.chunks with _ | (_ | ⟨c0, cs⟩)
      all_goals rw [hck] at hw
      all_goals dsimp only at hw
      · injection hw with hw
        subst hw
        exact ⟨rfl, rfl, rfl, rfl, rfl, hck, rfl, rfl, rfl, rfl, rfl, rfl⟩
      · injection hw with hw
        subst hw
        exact ⟨rfl, rfl, rfl, rfl, rfl, hck, rfl, rfl, rfl, rfl, rfl, rfl⟩
      · cases hem : embed (c0 :: cs) with
        | ok coll =>
            rw [hem, pyBind_ok] at hw
            injection hw with hw
            subst hw
            exact ⟨rfl, rfl, rfl, rfl, rfl, rfl, rfl, rfl, rfl, rfl, rfl, rfl⟩
        | error e => rw [hem, pyBind_error] at hw; cases hw
    · subst hv
      exact ⟨rfl, rfl, rfl, rfl, rfl, rfl, rfl, rfl, rfl, rfl, rfl, rfl⟩
  · intro qf s s2 h
    rcases pyTry_ok_cases h with hw | ⟨e, _, hv⟩
    · rcases hvs : s.vector_store with _ | vs
      all_goals rw [hvs] at hw
      all_goals dsimp only at hw
      · injection hw with hw
        subst hw
        exact ⟨rfl, rfl, rfl, rfl, rfl, rfl, rfl, rfl, rfl, rfl, rfl, rfl⟩
      · cases hq : qf s.query Pdf.queryNResults with
        | error e => rw [hq, pyBind_error] at hw; cases hw
        | ok results =>
            rw [hq, pyBind_ok] at hw
            rcases hd : results.documents with _ | (_ | ⟨d0, ds⟩)
            all_goals rw [hd] at hw
            all_goals dsimp only at hw
            · injection hw with hw
              subst hw
              exact ⟨rfl, rfl, rfl, rfl, rfl, rfl, rfl, rfl, rfl, rfl, rfl, rfl⟩
            · injection hw with hw
              subst hw
              exact ⟨rfl, rfl, rfl, rfl, rfl, rfl, rfl, rfl, rfl, rfl, rfl, rfl⟩
            · cases hb : Pdf.buildEntries (Pdf.metaRow results.metadatas) 0 d0 with
              | error e => rw [hb, pyBind_error] at hw; cases hw
              | ok entries =>
                  rw [hb, pyBind_ok] at hw
                  injection hw with hw
                  subst hw
                  exact ⟨rfl, rfl, rfl, rfl, rfl, rfl, rfl, rfl, rfl, rfl, rfl, rfl⟩
    · subst hv
      exact ⟨rfl, rfl, rfl, rfl, rfl, rfl, rfl, rfl, rfl, rfl, rfl, rfl⟩
  · intro llm s s2 h
    rcases pyTry_ok_cases h with hw | ⟨e, _, hv⟩
    · rcases hrc : s.retrieved_chunks with _ | (_ | ⟨r0, rs⟩)
      all_goals rw [hrc] at hw
      all_goals dsimp only at hw
      · injection hw with hw
        subst hw
        exact ⟨rfl, rfl, rfl, rfl, rfl, rfl, rfl, rfl, rfl, rfl, rfl, rfl⟩
      · injection hw with hw
        subst hw
        exact ⟨rfl, rfl, rfl, rfl, rfl, rfl, rfl, rfl, rfl, rfl, rfl, rfl⟩
      · cases hl : llm (Pdf.contextOf (r0 :: rs)) s.query (Pdf.filenameOf (s.sources.getD [])) with
        | error e => rw [hl, pyBind_error] at hw; cases hw
        | ok answer =>
            rw [hl, pyBind_ok] at hw
            injection hw with hw
            subst hw
            exact ⟨rfl, rfl, rfl, rfl, rfl, rfl, rfl, rfl, rfl, rfl, rfl, rfl⟩
    · subst hv
      exact ⟨rfl, rfl, rfl, rfl, rfl, rfl, rfl, rfl, rfl, rfl, rfl, rfl⟩

/-- C3 witness: the frame theorem evaluated on the one-page load result
`pdfPages0` from the initial processing state. -/
theorem pdf_nodes_frame_witness :
    pdfLoaded0.pdf_path = pdfState0.pdf_path ∧ pdfLoaded0.filename = pdfState0.filename ∧
    pdfLoaded0.mode = pdfState0.mode ∧ pdfLoaded0.chunks = pdfState0.chunks ∧
    pdfLoaded0.chunk_count = pdfState0.chunk_count ∧
    pdfLoaded0.vector_store = pdfState0.vector_store ∧
    pdfLoaded0.embedding_status = pdfState0.embedding_status ∧
    pdfLoaded0.query = pdfState0.query ∧
    pdfLoaded0.retrieved_chunks = pdfState0.retrieved_chunks ∧
    pdfLoaded0.sources = pdfState0.sources ∧ pdfLoaded0.answer = pdfState0.answer ∧
    pdfLoaded0.citations = pdfState0.citations :=
  pdf_nodes_frame.1 (.ok pdfPages0) pdfState0 pdfLoaded0 rfl

/-! ## C2 — graph shape and execution order -/

/-- C2 counterexample: the writing agent's compiled graph is not a fixed
acyclic sequence.  When the requirements LLM call requests a tool call
(oracle `[true, false]`), execution is
`requirements → tools → requirements → planner → writer → editor → social`,
so the `requirements` node executes twice in one invocation. -/
theorem blogger_graph_revisits_requirements :
    Blogger.run 10 [true, false] .requirements none =
      [.requirements, .tools, .requirements, .planner, .writer, .editor, .social] ∧
    ¬ (Blogger.run 10 [true, false] .requirements none).Nodup := by
  exact ⟨rfl, by decide⟩

/-- C2 amended: every compiled graph in the repository except the writing
agent's executes as a fixed acyclic sequence (each node at most once, same
order on every invocation): both RAG agents run
`load/transcribe → chunk → embed` or `query → answer` depending on the
mode, the bank analyzer runs its five nodes in a line, and the news and
itinerary graphs are straight lines.  The writing agent's graph contains
the cycles `requirements → tools → requirements` and
`planner → tools → planner`, so those two nodes can execute more than once
when the LLM requests tool calls; when it never does, the execution is the
fixed sequence `requirements, planner, writer, editor, social`. -/
theorem graph_execution_fixed_sequences :
    (∀ mode, Pdf.trace 5 (Pdf.entryNode mode) =
      if mode = "process_document"
      then [.load_pdf, .chunk_text, .generate_embeddings]
      else [.process_query, .generate_answer]) ∧
    (∀ mode, (Pdf.trace 5 (Pdf.entryNode mode)).Nodup) ∧
    (∀ mode, Audio.trace 5 (Audio.entry mode) =
      if mode = "process_audio"
      then [.transcribe_audio, .chunk_text, .generate_embeddings]
      else [.process_query, .generate_answer]) ∧
    (∀ mode, (Audio.trace 5 (Audio.entry mode)).Nodup) ∧
    (Bank.trace 5 .load_pdf =
      [.load_pdf, .parse_transactions, .categorize_transactions,
       .analyze_spending, .prepare_visualizations]) ∧
    (Bank.trace 5 .load_pdf).Nodup ∧
    (∀ n, News.fetchNext n = none) ∧
    (News.deepDiveNext .deep_dive = some .analyze ∧ News.deepDiveNext .analyze = none) ∧
    (∀ n, Itinerary.draftNext n = none) ∧
    (Itinerary.finalTrace 5 .generate_itinerary =
      [.generate_itinerary, .extract_locations, .format_output]) ∧
    (Itinerary.finalTrace 5 .generate_itinerary).Nodup ∧
    (Blogger.run 10 [] .requirements none =
      [.requirements, .planner, .writer, .editor, .social]) ∧
    (Blogger.run 10 [] .requirements none).Nodup := by
  refine ⟨?_, ?_, ?_, ?_, rfl, by decide, fun n => rfl, ⟨rfl, rfl⟩, fun n => rfl,
          rfl, by decide, rfl, by decide⟩
  · intro mode
    by_cases h : mode = "process_document" <;> simp [Pdf.entryNode, h, Pdf.trace, Pdf.nextNode]
  · intro mode
    by_cases h : mode = "process_document" <;> simp [Pdf.entryNode, h, Pdf.trace, Pdf.nextNode]
  · intro mode
    by_cases h : mode = "process_audio" <;> simp [Audio.entry, h, Audio.trace, Audio.nextNode]
  · intro mode
    by_cases h : mode = "process_audio" <;> simp [Audio.entry, h, Audio.trace, Audio.nextNode]

/-! ## C5 — parse_transactions post-processing -/

/-- C5 counterexample: the claim says `parse_transactions` fails if and
only if the fence-stripped response is not valid JSON, with exactly the
message `Transaction parsing failed: Invalid JSON from LLM`.  The response
`[]` is valid JSON, yet the node still fails — `.get` on the parsed list
raises an `AttributeError`, caught by the generic handler — returning
`transactions = None`, `transaction_count = 0` and a different message. -/
theorem parse_transactions_valid_json_array_fails :
    c5loads (pyCleanResponse "[]") = .ok (Json.arr []) ∧
    Bank.parse_transactions c5loads (.ok "[]") c5state =
      .ok { c5state with
              transactions := none
              transaction_count := some 0
              errors := c5state.errors ++
                ["Transaction parsing failed: AttributeError: list object has no attribute get"] } ∧
    ("Transaction parsing failed: AttributeError: list object has no attribute get" ≠
      "Transaction parsing failed: Invalid JSON from LLM") :=
  ⟨rfl, rfl, by decide⟩

/-- C5 amended: on a non-empty statement text, `parse_transactions` strips
markdown fences from the LLM response and parses it as JSON.  When parsing
raises `json.JSONDecodeError` it returns `transactions = None`,
`transaction_count = 0` and appends exactly
`Transaction parsing failed: Invalid JSON from LLM`; when the response is a
valid JSON object it stores the object's `transactions` list (default `[]`)
and its length.  Valid JSON that is not an object, however, also fails —
with a different message — so failure is not equivalent to invalid JSON. -/
theorem parse_transactions_json_behaviour (loads : String → Except PyExn Json)
    (content : String) (s : Bank.BankState) (t : String)
    (hrt : s.raw_text = some t) (hne : t ≠ "") :
    (∀ m, loads (pyCleanResponse content) = .error (.jsonDecode m) →
      Bank.parse_transactions loads (.ok content) s =
        .ok { s with transactions := none, transaction_count := some 0
                     errors := s.errors ++ ["Transaction parsing failed: Invalid JSON from LLM"] }) ∧
    (∀ kvs l, loads (pyCleanResponse content) = .ok (.obj kvs) →
      kvs.lookup "transactions" = some (.arr l) →
      Bank.parse_transactions loads (.ok content) s =
        .ok { s with
                transactions := some (.arr l)
                transaction_count := some l.length
                parsing_metadata := some
                  ((kvs.lookup "account_number").getD (.str "Unknown"),
                   (kvs.lookup "statement_period").getD (.str "Unknown")) }) ∧
    (∀ kvs, loads (pyCleanResponse content) = .ok (.obj kvs) →
      kvs.lookup "transactions" = none →
      Bank.parse_transactions loads (.ok content) s =
        .ok { s with
                transactions := some (.arr [])
                transaction_count := some 0
                parsing_metadata := some
                  ((kvs.lookup "account_number").getD (.str "Unknown"),
                   (kvs.lookup "statement_period").getD (.str "Unknown")) }) := by
  have hguard : Bank.pyFalsyStrOpt s.raw_text = false := by
    rw [hrt]
    simpa [Bank.pyFalsyStrOpt] using hne
  refine ⟨?_, ?_, ?_⟩
  · intro m h1
    unfold Bank.parse_transactions
    simp only [hguard, Bool.false_eq_true, if_false, pyBind_ok]
    rw [h1, pyBind_error]
    rfl
  · intro kvs l h1 h2
    unfold Bank.parse_transactions
    simp only [hguard, Bool.false_eq_true, if_false, pyBind_ok]
    rw [h1, pyBind_ok]
    simp only [pyDictGet, pyBind_ok, h2, Option.getD_some, pyLen]
    rfl
  · intro kvs h1 h2
    unfold Bank.parse_transactions
    simp only [hguard, Bool.false_eq_true, if_false, pyBind_ok]
    rw [h1, pyBind_ok]
    simp only [pyDictGet, pyBind_ok, h2, Option.getD_none, pyLen]
    rfl

/-- C5 witness: the amended behaviour evaluated at a response whose JSON
object carries a two-element `transactions` list. -/
theorem parse_transactions_json_behaviour_witness :
    Bank.parse_transactions c5wloads (.ok "resp") c5state =
      .ok { c5state with
              transactions := some (.arr [.num 1, .num 2])
              transaction_count := some 2
              parsing_metadata := some (.str "Unknown", .str "Unknown") } := by
  have h := (parse_transactions_json_behaviour c5wloads "resp" c5state "statement text"
      rfl (by decide)).2.1
      [("transactions", Json.arr [Json.num 1, Json.num 2])] [Json.num 1, Json.num 2] rfl rfl
  exact h

/-! ## C8 — analyze_spending totals -/

theorem addTo_snd_sum (m : List (String × ℚ)) (k : String) (v : ℚ) :
    ((Bank.addTo m k v).map Prod.snd).sum = (m.map Prod.snd).sum + v := by
  induction m with
  | nil => simp [Bank.addTo]
  | cons p rest ih =>
      obtain ⟨k2, v2⟩ := p
      by_cases hk : k2 = k
      · simp only [Bank.addTo, if_pos hk, List.map_cons, List.sum_cons]
        ring
      · simp only [Bank.addTo, if_neg hk, List.map_cons, List.sum_cons, ih]
        ring

theorem debitSum_cons (t : Bank.Txn) (rest : List Bank.Txn) :
    Bank.debitSum (t :: rest) =
      (if Bank.isDebit t then t.amount else 0) + Bank.debitSum rest := by
  by_cases hd : Bank.isDebit t <;> simp [Bank.debitSum, List.filter_cons, hd]

theorem categoryTotals_sum_aux (txns : List Bank.Txn) :
    ∀ m : List (String × ℚ),
      (((txns.foldl (fun m t => if Bank.isDebit t then Bank.addTo m t.category t.amount else m)
          m).map Prod.snd).sum) = (m.map Prod.snd).sum + Bank.debitSum txns := by
  induction txns with
  | nil => intro m; simp [Bank.debitSum]
  | cons t rest ih =>
      intro m
      cases hd : Bank.isDebit t
      · simp only [List.foldl_cons, hd, Bool.false_eq_true, if_false, ih, debitSum_cons]
        ring
      · simp only [List.foldl_cons, hd, if_true, ih, addTo_snd_sum, debitSum_cons]
        ring

/-- The values of the per-category debit totals sum to the un-rounded total
of the debit amounts. -/
theorem categoryTotals_values_sum (txns : List Bank.Txn) :
    ((Bank.categoryTotals txns).map Prod.snd).sum = Bank.debitSum txns := by
  simpa using categoryTotals_sum_aux txns []

theorem decodeTxn_encodeTxn (t : Bank.Txn) : Bank.decodeTxn (Bank.encodeTxn t) = .ok t := rfl

theorem decodeTxns_encode (txns : List Bank.Txn) :
    Bank.decodeTxns (.arr (txns.map Bank.encodeTxn)) = .ok txns := by
  induction txns with
  | nil => rfl
  | cons t rest ih =>
      simp only [Bank.decodeTxns, List.map_cons, List.mapM_cons, decodeTxn_encodeTxn,
        pyBind_ok] at ih ⊢
      rw [ih]
      rfl

/-- C8 counterexample: the claim quantifies over every transaction list,
but on the empty list `analyze_spending` skips (the `if not ...` guard)
and leaves every analysis field at its input value, so `total_debit` need
not equal the rounded (zero) debit sum. -/
theorem analyze_spending_skips_empty_list :
    Bank.analyze_spending c8emptyState = .ok c8emptyState ∧
    c8emptyState.categorized_transactions = some (.arr []) ∧
    c8emptyState.total_debit = some 5 ∧
    Bank.round2 (Bank.debitSum []) = 0 ∧
    some (5 : ℚ) ≠ some (Bank.round2 (Bank.debitSum [])) := by
  refine ⟨rfl, rfl, rfl, ?_, ?_⟩
  · simp [Bank.round2, Bank.debitSum]
  · simp [Bank.round2, Bank.debitSum]

/-- C8 amended: for every non-empty transaction list (each entry carrying a
numeric amount, a type and a category), `analyze_spending` sets
`total_debit` to the rounded sum of debit amounts, `total_credit` to the
rounded sum of credit amounts, `net_balance_change` to the rounded
difference, and the values of `category_totals` sum to the un-rounded debit
total.  (On the empty list the node skips and changes nothing.) -/
theorem analyze_spending_totals (s : Bank.BankState) (txns : List Bank.Txn)
    (s2 : Bank.BankState)
    (hcat : s.categorized_transactions = some (.arr (txns.map Bank.encodeTxn)))
    (hne : txns ≠ []) (h : Bank.analyze_spending s = .ok s2) :
    s2.total_debit = some (Bank.round2 (Bank.debitSum txns)) ∧
    s2.total_credit = some (Bank.round2 (Bank.creditSum txns)) ∧
    s2.net_balance_change = some (Bank.round2 (Bank.creditSum txns - Bank.debitSum txns)) ∧
    ∃ m, s2.category_totals = some m ∧ (m.map Prod.snd).sum = Bank.debitSum txns := by
  have hfalse : Bank.pyFalsyJson (.arr (txns.map Bank.encodeTxn)) = false := by
    cases txns with
    | nil => exact absurd rfl hne
    | cons a l => rfl
  unfold Bank.analyze_spending at h
  rw [hcat] at h
  simp only [hfalse, Bool.false_eq_true, if_false] at h
  rw [decodeTxns_encode, pyBind_ok] at h
  rcases pyTry_ok_cases h with hw | ⟨e, hb, _⟩
  · injection hw with hw
    subst hw
    exact ⟨rfl, rfl, rfl, Bank.categoryTotals txns, rfl, categoryTotals_values_sum txns⟩
  · exact Except.noConfusion hb

/-- C8 witness: the totals theorem evaluated on the concrete two-transaction
statement `c8txns`. -/
theorem analyze_spending_totals_witness :
    c8wOut.total_debit = some (Bank.round2 (Bank.debitSum c8txns)) ∧
    c8wOut.total_credit = some (Bank.round2 (Bank.creditSum c8txns)) ∧
    c8wOut.net_balance_change =
      some (Bank.round2 (Bank.creditSum c8txns - Bank.debitSum c8txns)) ∧
    ∃ m, c8wOut.category_totals = some m ∧ (m.map Prod.snd).sum = Bank.debitSum c8txns :=
  analyze_spending_totals c8wState c8txns c8wOut rfl (by simp [c8txns]) rfl

/-! ## C6 — chunk_text outputs -/

theorem chunksOf_length (f now : String) (tcs : List String) :
    (Pdf.chunksOf f now tcs).length = tcs.length := by
  simp [Pdf.chunksOf]

theorem chunksOf_get (f now : String) (tcs : List String) (i : Nat)
    (hi : i < (Pdf.chunksOf f now tcs).length) :
    (Pdf.chunksOf f now tcs).get ⟨i, hi⟩ =
      Pdf.mkChunk f now i (tcs.get ⟨i, by simpa [Pdf.chunksOf] using hi⟩) := by
  simp [Pdf.chunksOf, List.get_eq_getElem, List.getElem_map, List.getElem_enum]

/-- C6: on a state whose `raw_text` is a non-empty string, when the text
splitter succeeds, `chunk_text` returns a state whose `chunks` is a
non-`None` list, whose `chunk_count` equals its length, and each chunk's
metadata carries the input `filename` and its own position as
`chunk_index`. -/
theorem chunk_text_outputs (split : Splitter) (now : String)
    (s : Pdf.RAGAgentState) (text : String) (tcs : List String)
    (s2 : Pdf.RAGAgentState) (hrt : s.raw_text = some text) (hne : text ≠ "")
    (hsp : split ⟨Pdf.CHUNK_SIZE, Pdf.CHUNK_OVERLAP⟩ text = .ok tcs)
    (h : Pdf.chunk_text split now s = .ok s2) :
    ∃ cs, s2.chunks = some cs ∧ s2.chunk_count = some cs.length ∧
      cs.length = tcs.length ∧
      ∀ i, ∀ hi : i < cs.length,
        (cs.get ⟨i, hi⟩).metadata.filename = s.filename ∧
        (cs.get ⟨i, hi⟩).metadata.chunk_index = i := by
  rcases pyTry_ok_cases h with hw | ⟨e, hb, _⟩
  · rw [hrt] at hw
    dsimp only at hw
    rw [if_neg hne, hsp, pyBind_ok] at hw
    injection hw with hw
    subst hw
    refine ⟨Pdf.chunksOf s.filename now tcs, rfl, rfl, chunksOf_length .., ?_⟩
    intro i hi
    rw [chunksOf_get]
    exact ⟨rfl, rfl⟩
  · rw [hrt] at hb
    dsimp only at hb
    rw [if_neg hne, hsp, pyBind_ok] at hb
    exact Except.noConfusion hb

/-- C6 witness: the output theorem evaluated on the concrete four-character
text and the two-chunk splitter outcome. -/
theorem chunk_text_outputs_witness :
    ∃ cs, c4PdfOut.chunks = some cs ∧ c4PdfOut.chunk_count = some cs.length ∧
      cs.length = (["ab", "cd"] : List String).length ∧
      ∀ i, ∀ hi : i < cs.length,
        (cs.get ⟨i, hi⟩).metadata.filename = c4PdfState.filename ∧
        (cs.get ⟨i, hi⟩).metadata.chunk_index = i :=
  chunk_text_outputs twoChunkSplit "n1" c4PdfState "abcd" ["ab", "cd"] c4PdfOut
    rfl (by decide) rfl rfl

/-! ## C4 — the retrieval chunking is reused equivalently -/

theorem mkAChunkE_some (f now : String) (d : ℚ) (total : Nat) (tcs : List String)
    (i : Nat) (text : String) :
    Audio.mkAChunkE f now (some d) total tcs i text =
      .ok (Audio.mkAChunk f now d total tcs i text) := by
  by_cases h : 0 < total <;>
    simp [Audio.mkAChunkE, Audio.mkAChunk, Audio.timeOf, h, pyBind_ok]

theorem achunksGo_some (f now : String) (d : ℚ) (total : Nat) (tcs : List String) :
    ∀ l, Audio.achunksGo f now (some d) total tcs l =
      .ok (l.map fun p => Audio.mkAChunk f now d total tcs p.1 p.2) := by
  intro l
  induction l with
  | nil => rfl
  | cons p rest ih =>
      obtain ⟨i, c⟩ := p
      simp [Audio.achunksGo, mkAChunkE_some, pyBind_ok, ih]

theorem achunksOfE_some (f now : String) (d : ℚ) (total : Nat) (tcs : List String) :
    Audio.achunksOfE f now (some d) total tcs = .ok (Audio.achunksOf f now d total tcs) := by
  unfold Audio.achunksOfE Audio.achunksOf
  rw [achunksGo_some]

theorem chunksOf_map_text (f now : String) (tcs : List String) :
    (Pdf.chunksOf f now tcs).map Pdf.Chunk.text = tcs := by
  unfold Pdf.chunksOf
  rw [List.map_map]
  rw [show (Pdf.Chunk.text ∘ fun p : Nat × String => Pdf.mkChunk f now p.1 p.2) =
        Prod.snd from rfl]
  exact List.enum_map_snd tcs

theorem chunksOf_map_index (f now : String) (tcs : List String) :
    (Pdf.chunksOf f now tcs).map (fun c => c.metadata.chunk_index) =
      List.range tcs.length := by
  unfold Pdf.chunksOf
  rw [List.map_map]
  rw [show ((fun c : Pdf.Chunk => c.metadata.chunk_index) ∘
        fun p : Nat × String => Pdf.mkChunk f now p.1 p.2) = Prod.fst from rfl]
  exact List.enum_map_fst tcs

theorem achunksOf_map_text (f now : String) (d : ℚ) (total : Nat) (tcs : List String) :
    (Audio.achunksOf f now d total tcs).map Audio.AChunk.text = tcs := by
  unfold Audio.achunksOf
  rw [List.map_map]
  rw [show (Audio.AChunk.text ∘ fun p : Nat × String =>
        Audio.mkAChunk f now d total tcs p.1 p.2) = Prod.snd from rfl]
  exact List.enum_map_snd tcs

theorem achunksOf_map_index (f now : String) (d : ℚ) (total : Nat) (tcs : List String) :
    (Audio.achunksOf f now d total tcs).map (fun c => c.metadata.chunk_index) =
      List.range tcs.length := by
  unfold Audio.achunksOf
  rw [List.map_map]
  rw [show ((fun c : Audio.AChunk => c.metadata.chunk_index) ∘
        fun p : Nat × String => Audio.mkAChunk f now d total tcs p.1 p.2) = Prod.fst from rfl]
  exact List.enum_map_fst tcs

/-- C4: on identical non-empty input text (with the audio duration set, as
the transcription step leaves it), the PDF agent's `chunk_text` and the
audio agent's `chunk_text` produce the same number of chunks with pairwise
identical chunk text and identical `chunk_index` values: both call the
splitter with chunk size 1000 and overlap 200, and both query nodes request
`TOP_K_CHUNKS = 4` nearest neighbours. -/
theorem rag_chunking_equivalence (split : Splitter) (text now1 now2 : String)
    (sp : Pdf.RAGAgentState) (sa : Audio.AudioRAGAgentState) (d : ℚ)
    (tcs : List String) (s1 : Pdf.RAGAgentState) (s2 : Audio.AudioRAGAgentState)
    (h1 : sp.raw_text = some text) (h2 : sa.transcript_text = some text)
    (hne : text ≠ "") (hd : sa.audio_duration = some d)
    (hsp : split ⟨Pdf.CHUNK_SIZE, Pdf.CHUNK_OVERLAP⟩ text = .ok tcs)
    (hp : Pdf.chunk_text split now1 sp = .ok s1)
    (ha : Audio.chunk_text split now2 sa = .ok s2) :
    (∃ cs1 cs2, s1.chunks = some cs1 ∧ s2.chunks = some cs2 ∧
      cs1.map Pdf.Chunk.text = tcs ∧ cs2.map Audio.AChunk.text = tcs ∧
      cs1.map (fun c => c.metadata.chunk_index) = List.range tcs.length ∧
      cs2.map (fun c => c.metadata.chunk_index) = List.range tcs.length ∧
      cs1.length = cs2.length) ∧
    Pdf.CHUNK_SIZE = 1000 ∧ Audio.CHUNK_SIZE = 1000 ∧
    Pdf.CHUNK_OVERLAP = 200 ∧ Audio.CHUNK_OVERLAP = 200 ∧
    Pdf.queryNResults = 4 ∧ Audio.queryNResults = 4 := by
  have hsp2 : split ⟨Audio.CHUNK_SIZE, Audio.CHUNK_OVERLAP⟩ text = .ok tcs := hsp
  refine ⟨?_, rfl, rfl, rfl, rfl, rfl, rfl⟩
  have hcs1 : s1.chunks = some (Pdf.chunksOf sp.filename now1 tcs) := by
    rcases pyTry_ok_cases hp with hw | ⟨e, hb, _⟩
    · rw [h1] at hw
      dsimp only at hw
      rw [if_neg hne, hsp, pyBind_ok] at hw
      injection hw with hw
      subst hw
      rfl
    · rw [h1] at hb
      dsimp only at hb
      rw [if_neg hne, hsp, pyBind_ok] at hb
      exact Except.noConfusion hb
  have hcs2 : s2.chunks = some (Audio.achunksOf sa.filename now2 d text.length tcs) := by
    rcases pyTry_ok_cases ha with hw | ⟨e, hb, _⟩
    · rw [h2] at hw
      dsimp only at hw
      rw [if_neg hne, hsp2, pyBind_ok, hd, achunksOfE_some, pyBind_ok] at hw
      injection hw with hw
      subst hw
      rfl
    · rw [h2] at hb
      dsimp only at hb
      rw [if_neg hne, hsp2, pyBind_ok, hd, achunksOfE_some, pyBind_ok] at hb
      exact Except.noConfusion hb
  refine ⟨Pdf.chunksOf sp.filename now1 tcs,
          Audio.achunksOf sa.filename now2 d text.length tcs,
          hcs1, hcs2, chunksOf_map_text .., achunksOf_map_text ..,
          chunksOf_map_index .., achunksOf_map_index .., ?_⟩
  simp [Pdf.chunksOf, Audio.achunksOf]

/-- C4 witness: the equivalence evaluated on the concrete text `abcd`, the
two-chunk splitter outcome, and duration 10. -/
theorem rag_chunking_equivalence_witness :
    (∃ cs1 cs2, c4PdfOut.chunks = some cs1 ∧ c4AudioOut.chunks = some cs2 ∧
      cs1.map Pdf.Chunk.text = ["ab", "cd"] ∧ cs2.map Audio.AChunk.text = ["ab", "cd"] ∧
      cs1.map (fun c => c.metadata.chunk_index) = List.range 2 ∧
      cs2.map (fun c => c.metadata.chunk_index) = List.range 2 ∧
      cs1.length = cs2.length) ∧
    Pdf.CHUNK_SIZE = 1000 ∧ Audio.CHUNK_SIZE = 1000 ∧
    Pdf.CHUNK_OVERLAP = 200 ∧ Audio.CHUNK_OVERLAP = 200 ∧
    Pdf.queryNResults = 4 ∧ Audio.queryNResults = 4 :=
  rag_chunking_equivalence twoChunkSplit "abcd" "n1" "n2" c4PdfState c4AudioState 10
    ["ab", "cd"] c4PdfOut c4AudioOut rfl rfl (by decide) rfl rfl rfl rfl

/-! ## C10 — audio chunk timestamp bounds -/

theorem startCharOf_mono (tcs : List String) {i j : Nat} (h : i ≤ j) :
    Audio.startCharOf tcs i ≤ Audio.startCharOf tcs j := by
  obtain ⟨k, rfl⟩ := Nat.exists_eq_add_of_le h
  unfold Audio.startCharOf
  rw [List.take_add, List.map_append, List.sum_append]
  exact Nat.le_add_right _ _

theorem startCharOf_succ (tcs : List String) (i : Nat) (hi : i < tcs.length) :
    Audio.startCharOf tcs (i + 1) =
      Audio.startCharOf tcs i + (tcs.get ⟨i, hi⟩).length := by
  unfold Audio.startCharOf
  rw [List.take_succ, List.getElem?_eq_getElem hi, List.map_append, List.sum_append]
  simp [List.get_eq_getElem]

theorem startCharOf_le_total (tcs : List String) {i : Nat} (hi : i ≤ tcs.length) :
    Audio.startCharOf tcs i ≤ (tcs.map String.length).sum := by
  have h := startCharOf_mono tcs hi
  unfold Audio.startCharOf at h
  rwa [List.take_length] at h

theorem frac_mul_mono {a b t d : ℚ} (ht : 0 < t) (hd : 0 ≤ d) (hab : a ≤ b) :
    a / t * d ≤ b / t * d :=
  mul_le_mul_of_nonneg_right ((div_le_div_iff_of_pos_right ht).mpr hab) hd

theorem achunksOf_length (f now : String) (d : ℚ) (total : Nat) (tcs : List String) :
    (Audio.achunksOf f now d total tcs).length = tcs.length := by
  simp [Audio.achunksOf]

theorem achunksOf_get (f now : String) (d : ℚ) (total : Nat) (tcs : List String)
    (i : Nat) (hi : i < (Audio.achunksOf f now d total tcs).length) :
    (Audio.achunksOf f now d total tcs).get ⟨i, hi⟩ =
      Audio.mkAChunk f now d total tcs i (tcs.get ⟨i, by simpa [Audio.achunksOf] using hi⟩) := by
  simp [Audio.achunksOf, List.get_eq_getElem, List.getElem_map, List.getElem_enum]

theorem mkAChunk_start (f now : String) (d : ℚ) (total : Nat) (tcs : List String)
    (i : Nat) (text : String) (h : 0 < total) :
    (Audio.mkAChunk f now d total tcs i text).metadata.start_time =
      ((Audio.startCharOf tcs i : ℚ) / (total : ℚ)) * d := by
  simp [Audio.mkAChunk, h]

theorem mkAChunk_end (f now : String) (d : ℚ) (total : Nat) (tcs : List String)
    (i : Nat) (text : String) (h : 0 < total) :
    (Audio.mkAChunk f now d total tcs i text).metadata.end_time =
      (((Audio.startCharOf tcs i + text.length : Nat) : ℚ) / (total : ℚ)) * d := by
  simp [Audio.mkAChunk, h]

theorem string_length_pos {text : String} (hne : text ≠ "") : 0 < text.length := by
  cases text with
  | mk l =>
      cases l with
      | nil => exact absurd rfl hne
      | cons c cl => simp [String.length]

set_option maxRecDepth 100000 in
/-- C10 counterexample: the claim bounds every chunk's `end_time` by
`audio_duration`.  On a 1200-character transcript with duration 60 whose
splitter output is two chunks of 1000 and 400 characters (a 200-character
overlap, as produced by the configured splitter), the second chunk's
`end_time` is `(1400/1200)·60 = 70 > 60`, because the interpolation uses
cumulative chunk lengths, which double-count the overlap. -/
theorem audio_chunk_end_time_exceeds_duration :
    c10state.audio_duration = some 60 ∧
    (c10state.transcript_text.getD "").length = 1200 ∧
    c10chunks.length = 2 ∧
    (c10chunks.getD 1 dummyAChunk).metadata.end_time = 70 ∧
    ¬ (c10chunks.getD 1 dummyAChunk).metadata.end_time ≤ 60 := by
  have hval : (c10chunks.getD 1 dummyAChunk).metadata.end_time =
      ((1400 : Nat) : ℚ) / ((1200 : Nat) : ℚ) * 60 := rfl
  refine ⟨rfl, by decide, rfl, ?_, ?_⟩
  · rw [hval]; norm_num
  · rw [hval]; norm_num

/-- C10 amended: for every chunk list the audio `chunk_text` produces from
a non-empty transcript with a positive duration, each chunk's timestamps
satisfy `0 ≤ start_time ≤ end_time`, `start_time` is non-decreasing in
`chunk_index`, and `end_time` is bounded by
`(Σ chunk lengths / transcript length) · audio_duration` — which exceeds
`audio_duration` exactly when the overlapping chunks' cumulative length
exceeds the transcript length, so `end_time ≤ audio_duration` does not
hold in general. -/
theorem audio_chunk_timestamp_bounds (split : Splitter) (now : String)
    (s : Audio.AudioRAGAgentState) (text : String) (d : ℚ) (tcs : List String)
    (s2 : Audio.AudioRAGAgentState)
    (hrt : s.transcript_text = some text) (hne : text ≠ "")
    (hdur : s.audio_duration = some d) (hdpos : 0 < d)
    (hsp : split ⟨Audio.CHUNK_SIZE, Audio.CHUNK_OVERLAP⟩ text = .ok tcs)
    (h : Audio.chunk_text split now s = .ok s2) :
    ∃ cs, s2.chunks = some cs ∧
      ∀ i, ∀ hi : i < cs.length,
        0 ≤ (cs.get ⟨i, hi⟩).metadata.start_time ∧
        (cs.get ⟨i, hi⟩).metadata.start_time ≤ (cs.get ⟨i, hi⟩).metadata.end_time ∧
        (cs.get ⟨i, hi⟩).metadata.end_time ≤
          (((tcs.map String.length).sum : ℚ) / (text.length : ℚ)) * d ∧
        ∀ j, ∀ hj : j < cs.length, j ≤ i →
          (cs.get ⟨j, hj⟩).metadata.start_time ≤ (cs.get ⟨i, hi⟩).metadata.start_time := by
  have htot : 0 < text.length := string_length_pos hne
  have htotQ : (0 : ℚ) < (text.length : ℚ) := by exact_mod_cast htot
  have hcs : s2.chunks = some (Audio.achunksOf s.filename now d text.length tcs) := by
    rcases pyTry_ok_cases h with hw | ⟨e, hb, _⟩
    · rw [hrt] at hw
      dsimp only at hw
      rw [if_neg hne, hsp, pyBind_ok, hdur, achunksOfE_some, pyBind_ok] at hw
      injection hw with hw
      subst hw
      rfl
    · rw [hrt] at hb
      dsimp only at hb
      rw [if_neg hne, hsp, pyBind_ok, hdur, achunksOfE_some, pyBind_ok] at hb
      exact Except.noConfusion hb
  refine ⟨Audio.achunksOf s.filename now d text.length tcs, hcs, ?_⟩
  intro i hi
  have hlen : i < tcs.length := by simpa [Audio.achunksOf] using hi
  rw [achunksOf_get]
  rw [mkAChunk_start _ _ _ _ _ _ _ htot, mkAChunk_end _ _ _ _ _ _ _ htot]
  refine ⟨?_, ?_, ?_, ?_⟩
  · exact mul_nonneg (div_nonneg (Nat.cast_nonneg _) (Nat.cast_nonneg _)) hdpos.le
  · exact frac_mul_mono htotQ hdpos.le (by exact_mod_cast Nat.le_add_right _ _)
  · refine frac_mul_mono htotQ hdpos.le ?_
    have hsucc := startCharOf_succ tcs i hlen
    have hle := startCharOf_le_total tcs (i := i + 1) hlen
    rw [hsucc] at hle
    exact_mod_cast hle
  · intro j hj hji
    rw [achunksOf_get, mkAChunk_start _ _ _ _ _ _ _ htot]
    exact frac_mul_mono htotQ hdpos.le (by exact_mod_cast startCharOf_mono tcs hji)

/-- C10 witness: the bounds evaluated on the concrete text `abcd` with
duration 10 and the two-chunk splitter outcome. -/
theorem audio_chunk_timestamp_bounds_witness :
    ∃ cs, c4AudioOut.chunks = some cs ∧
      ∀ i, ∀ hi : i < cs.length,
        0 ≤ (cs.get ⟨i, hi⟩).metadata.start_time ∧
        (cs.get ⟨i, hi⟩).metadata.start_time ≤ (cs.get ⟨i, hi⟩).metadata.end_time ∧
        (cs.get ⟨i, hi⟩).metadata.end_time ≤
          ((((["ab", "cd"] : List String).map String.length).sum : ℚ) /
            (("abcd" : String).length : ℚ)) * 10 ∧
        ∀ j, ∀ hj : j < cs.length, j ≤ i →
          (cs.get ⟨j, hj⟩).metadata.start_time ≤ (cs.get ⟨i, hi⟩).metadata.start_time :=
  audio_chunk_timestamp_bounds twoChunkSplit "n2" c4AudioState "abcd" 10 ["ab", "cd"]
    c4AudioOut rfl (by decide) rfl (by norm_num) rfl rfl

/-! ## C7 — command-line interaction surface -/


/-- C7 counterexample: the claim says no source file defines an interactive
command loop on standard input.  The writing agent's `run()` is exactly
that: inside `while True` it reads a line and dispatches — `q`
(case-insensitively) quits, `continue` or a blank line resumes the paused
graph, and any other line is injected as feedback; a session that answers
`continue` four times runs the graph to completion, while `q` aborts it. -/
theorem blogger_run_is_command_loop :
    Blogger.runDispatch "q" = .quit ∧
    Blogger.runDispatch "Q" = .quit ∧
    Blogger.runDispatch "continue" = .resume ∧
    Blogger.runDispatch "" = .resume ∧
    Blogger.runDispatch "add a section on testing" = .feedback "add a section on testing" ∧
    Blogger.runLoop ["continue", "continue", "continue", "continue"] .beforePlanner =
      .completed ∧
    Blogger.runLoop ["q"] .beforePlanner = .quitByUser :=
  ⟨rfl, rfl, rfl, rfl, rfl, rfl, rfl⟩

/-- C7 amended: all user interaction of the repository's agents goes
through the Streamlit UI except the writing agent's optional terminal
runner: `blogger.py`'s `run()` defines an interactive command loop on
standard input whose dispatch is total — it quits exactly on `q`
(case-insensitive), resumes the checkpointed graph exactly on `continue`
or a blank line, and treats any other line as feedback text passed through
verbatim; the loop only ends by graph completion, by a `q` command, or by
running out of input. -/
theorem blogger_command_loop_dispatch :
    (∀ s, Blogger.runDispatch s = .quit ↔ pyLower s = "q") ∧
    (∀ s, Blogger.runDispatch s = .resume ↔
      (pyLower s ≠ "q" ∧ (pyLower s = "continue" ∨ pyStrip s = ""))) ∧
    (∀ s t, Blogger.runDispatch s = .feedback t → t = s) ∧
    (∀ inputs st, Blogger.runLoop inputs st = .quitByUser →
      ∃ inp, inp ∈ inputs ∧ pyLower inp = "q") := by
  refine ⟨runDispatch_quit_iff, ?_, ?_, runLoop_quit_mem⟩
  · intro s
    unfold Blogger.runDispatch
    split
    · simp_all
    · split <;> simp_all
  · intro s t
    unfold Blogger.runDispatch
    split
    · intro h; cases h
    · split
      · intro h; cases h
      · intro h; cases h; rfl

/-- C7 witness: the dispatch characterisation applied at the concrete
session `["q"]` paused before the planner. -/
theorem blogger_command_loop_dispatch_witness :
    ∃ inp, inp ∈ ["q"] ∧ pyLower inp = "q" :=
  blogger_command_loop_dispatch.2.2.2 ["q"] .beforePlanner rfl

end AICookbook
